import Mathlib

/-!
A shallow embedding, in Lean 4, of the core write paths of the
community-policing records server (a Node.js/Express + MySQL application):

* the error taxonomy of `src/utils/errors.js` (`AppError`, `fromMysqlError`),
* the central error-handling middleware of `src/middleware/errorHandler.js`,
* the transactional wrapper `withTransaction` of `src/config/db.js`,
* the case aggregate service `src/modules/cases/service.js`
  (`validateCaseBusinessRules`, `handleCaseDbError`, `getCaseDetail`,
  `createCase`, `updateCase`, `deleteCase`),
* the nine-small-place / inspection partial-update merges
  (`updatePlace`, `updateInspection` of the places service),
* the authentication service `src/modules/auth/service.js`
  (`login`, `register`).

JavaScript values arriving from JSON bodies are either a proper value or
`null`; a key can also be absent.  A nullable stored column or merged field
is modelled as `Option α` (`none` = SQL `NULL` / JS `null`), and a patch
field as `Option (Option α)` (`none` = key absent, `some none` = key present
with explicit `null`, `some (some v)` = key present with value `v`).
JS truthiness on strings (`'' `is falsy) and `isNil` (null/undefined only)
are modelled explicitly.  Dates are `YYYY-MM-DD` strings compared
lexicographically, exactly as the JS `<` on strings behaves for them.
-/

namespace Server

instance {ε α : Type} [DecidableEq ε] [DecidableEq α] : DecidableEq (Except ε α) := fun a b =>
  match a, b with
  | .ok x, .ok y =>
    if h : x = y then isTrue (by rw [h]) else isFalse (by simp [h])
  | .ok _, .error _ => isFalse (by simp)
  | .error _, .ok _ => isFalse (by simp)
  | .error x, .error y =>
    if h : x = y then isTrue (by rw [h]) else isFalse (by simp [h])

/-- JS truthiness of a nullable string: `null`/`undefined` and `''` are
falsy, any other string is truthy (mirrors `!closedDate`-style tests). -/
def truthyS : Option String → Bool
  | none => false
  | some s => !(s == "")

/-- JS truthiness of a patch-level string field
(`undefined`, `null` and `''` are falsy). -/
def truthyPS : Option (Option String) → Bool
  | some (some s) => !(s == "")
  | _ => false

/-- `isNil` from `cases/service.js`: `value === null || typeof value === 'undefined'`. -/
def isNil : Option Int → Bool
  | none => true
  | some _ => false

/-- Lexicographic comparison of character lists by code point (for the
ASCII `YYYY-MM-DD` dates in play this coincides with the JS `<` on
strings, which compares UTF-16 code units). -/
def charListLt : List Char → List Char → Bool
  | _, [] => false
  | [], _ :: _ => true
  | a :: as, b :: bs =>
    if a.toNat < b.toNat then true
    else if b.toNat < a.toNat then false
    else charListLt as bs

/-- JS `a < b` on two strings. -/
def strLt (a b : String) : Bool :=
  charListLt a.data b.data

/-- Lexicographic `<` on two present strings, mirroring the JS string
comparison `deadlineDate < receivedDate` (both operands already truthy). -/
def strLtOpt : Option String → Option String → Bool
  | some a, some b => strLt a b
  | _, _ => false

/-! ## Error taxonomy (`src/utils/errors.js`) -/

/-- The `details` payload attached to an `AppError`:
`fieldErrors` maps (as an association list, only the keys whose message is
defined — JS keys holding `undefined` disappear from the JSON response),
`raw` carries a raw SQL message, `original` carries an original driver
message, and `originalErr` stands for an entire original error object. -/
inductive ErrDetails where
  | fieldErrors (fields : List (String × String))
  | raw (msg : Option String)
  | original (msg : Option String)
  | originalErr
deriving DecidableEq, Repr

/-- `AppError` of `src/utils/errors.js`: an error code from `ERROR_CODES`,
an HTTP status, a user-facing message and optional details. -/
structure AppErr where
  errorCode : String
  status : Nat
  message : String
  details : Option ErrDetails
deriving DecidableEq, Repr

def unauthorizedE (message : String) : AppErr :=
  ⟨"UNAUTHORIZED", 401, message, none⟩

def forbiddenE (message : String) : AppErr :=
  ⟨"FORBIDDEN", 403, message, none⟩

def validationErrorE (message : String) (details : Option ErrDetails) : AppErr :=
  ⟨"VALIDATION_ERROR", 400, message, details⟩

def notFoundE (message : String) : AppErr :=
  ⟨"NOT_FOUND", 404, message, none⟩

def conflictE (message : String) (details : Option ErrDetails) : AppErr :=
  ⟨"CONFLICT", 409, message, details⟩

def dbErrorE (message : String) (details : Option ErrDetails) : AppErr :=
  ⟨"DB_ERROR", 500, message, details⟩

def internalErrorE (message : String) (details : Option ErrDetails) : AppErr :=
  ⟨"INTERNAL_ERROR", 500, message, details⟩

/-- A MySQL driver error as observed by the services: an optional error
`code` (e.g. `ER_DUP_ENTRY`) and an optional message. -/
structure MysqlErr where
  code : Option String
  message : Option String
deriving DecidableEq, Repr

/-- `err.message && err.message.includes(sub)` — truthy message containing
`sub` as a substring. -/
def msgIncludes (m : Option String) (sub : String) : Bool :=
  match m with
  | none => false
  | some s => !(s == "") && ((s.splitOn sub).length > 1)

/-- `fromMysqlError` of `src/utils/errors.js`. -/
def fromMysqlError (err : Option MysqlErr) (defaultMessage : Option String) : AppErr :=
  match err with
  | none => internalErrorE (defaultMessage.getD "未知数据库错误") (some .originalErr)
  | some e =>
    match e.code with
    | none => internalErrorE (defaultMessage.getD "未知数据库错误") (some .originalErr)
    | some c =>
      if c == "ER_DUP_ENTRY" then
        conflictE (defaultMessage.getD "唯一约束冲突") (some (.original e.message))
      else
        dbErrorE (defaultMessage.getD "数据库操作异常") (some (.original e.message))

/-! ## Case records, patches and the merge (`cases/service.js`) -/

/-- A `case_records` row (or a merged record): every column the service
reads and writes, nullable as in the schema. -/
structure CaseRecord where
  caseNo : Option String
  caseName : Option String
  caseTypeItemId : Option Int
  mainOfficerId : Option Int
  receivedDate : Option String
  deadlineDate : Option String
  closedDate : Option String
  resultItemId : Option Int
  description : Option String
  status : Option String
  transferTarget : Option String
  transferReceiver : Option String
  transferDate : Option String
  transferReturnDate : Option String
  transferNote : Option String
  archiveLocation : Option String
  archiveDate : Option String
deriving DecidableEq, Repr

/-- One element of a supplied `officers` list
(`{officerId, role?, remark?}`). -/
structure OfficerInput where
  officerId : Option Int
  role : Option String
  remark : Option String
deriving DecidableEq, Repr

/-- One element of a supplied `persons` list. -/
structure PersonInput where
  name : Option String
  idNo : Option String
  contact : Option String
  roleItemId : Option Int
  remark : Option String
deriving DecidableEq, Repr

/-- The JSON body of a case update.  Scalar fields are
absent / explicit-null / value (`Option (Option α)`); the child-collection
keys `officers` and `persons` are likewise absent, explicit `null`, or a
list (the code applies `Array.isArray` to a non-array value). -/
structure CasePatch where
  caseNo : Option (Option String) := none
  caseName : Option (Option String) := none
  caseTypeItemId : Option (Option Int) := none
  mainOfficerId : Option (Option Int) := none
  receivedDate : Option (Option String) := none
  deadlineDate : Option (Option String) := none
  closedDate : Option (Option String) := none
  resultItemId : Option (Option Int) := none
  description : Option (Option String) := none
  status : Option (Option String) := none
  transferTarget : Option (Option String) := none
  transferReceiver : Option (Option String) := none
  transferDate : Option (Option String) := none
  transferReturnDate : Option (Option String) := none
  transferNote : Option (Option String) := none
  archiveLocation : Option (Option String) := none
  archiveDate : Option (Option String) := none
  officers : Option (Option (List OfficerInput)) := none
  persons : Option (Option (List PersonInput)) := none
deriving DecidableEq, Repr

/-- The object-spread merge `{...existingCase, ...data}` of `updateCase`:
a key present in the patch (even with value `null`) overrides the existing
field; an absent key keeps it. -/
def mergeCase (e : CaseRecord) (p : CasePatch) : CaseRecord where
  caseNo := p.caseNo.getD e.caseNo
  caseName := p.caseName.getD e.caseName
  caseTypeItemId := p.caseTypeItemId.getD e.caseTypeItemId
  mainOfficerId := p.mainOfficerId.getD e.mainOfficerId
  receivedDate := p.receivedDate.getD e.receivedDate
  deadlineDate := p.deadlineDate.getD e.deadlineDate
  closedDate := p.closedDate.getD e.closedDate
  resultItemId := p.resultItemId.getD e.resultItemId
  description := p.description.getD e.description
  status := p.status.getD e.status
  transferTarget := p.transferTarget.getD e.transferTarget
  transferReceiver := p.transferReceiver.getD e.transferReceiver
  transferDate := p.transferDate.getD e.transferDate
  transferReturnDate := p.transferReturnDate.getD e.transferReturnDate
  transferNote := p.transferNote.getD e.transferNote
  archiveLocation := p.archiveLocation.getD e.archiveLocation
  archiveDate := p.archiveDate.getD e.archiveDate

/-- The date-ordering rule `deadlineDate && receivedDate && deadlineDate < receivedDate`
of `validateCaseBusinessRules`. -/
def deadlineViolated (c : CaseRecord) : Bool :=
  truthyS c.deadlineDate && truthyS c.receivedDate
    && strLtOpt c.deadlineDate c.receivedDate

/-- `validateCaseBusinessRules` of `cases/service.js`: returns the first
thrown `ValidationError`, or `none` when all rules pass.  The rules run in
source order: date ordering, then the `已结` (closed), `移交` (transferred)
and `存档` (archived) status-gated requirements.  Inside one rule the field
map lists every missing member of the pair (JS keys set to `undefined` are
dropped from the map). -/
def validateCaseBusinessRules (c : CaseRecord) : Option AppErr :=
  if deadlineViolated c then
    some (validationErrorE "办理截止日期不能早于受案日期"
      (some (.fieldErrors [("deadlineDate", "截止日期不能早于受案日期")])))
  else if c.status == some "已结" && (!truthyS c.closedDate || isNil c.resultItemId) then
    some (validationErrorE "已结案件必须填写结案日期和结案结果"
      (some (.fieldErrors
        ((if !truthyS c.closedDate then [("closedDate", "结案日期必填")] else [])
          ++ (if isNil c.resultItemId then [("resultItemId", "处理结果必填")] else [])))))
  else if c.status == some "移交" && (!truthyS c.transferTarget || !truthyS c.transferDate) then
    some (validationErrorE "移交状态必须填写移交去向和移交时间"
      (some (.fieldErrors
        ((if !truthyS c.transferTarget then [("transferTarget", "移交去向必填")] else [])
          ++ (if !truthyS c.transferDate then [("transferDate", "移交时间必填")] else [])))))
  else if c.status == some "存档" && (!truthyS c.archiveLocation || !truthyS c.archiveDate) then
    some (validationErrorE "存档状态必须填写存档位置和存档日期"
      (some (.fieldErrors
        ((if !truthyS c.archiveLocation then [("archiveLocation", "存档位置必填")] else [])
          ++ (if !truthyS c.archiveDate then [("archiveDate", "存档日期必填")] else [])))))
  else
    none

/-- The keys of the `fieldErrors` detail map of a (possible) error — the
field names a client can see in `details.fieldErrors`. -/
def fieldKeys : Option AppErr → List String
  | some ⟨_, _, _, some (.fieldErrors fs)⟩ => fs.map Prod.fst
  | _ => []

/-- The fate of an `AppError` thrown *inside* the `try` block of
`createCase` / `updateCase` / `deleteCase`.  Their catch reads the
*property* `err.isAppError`, which no code ever sets (`errors.js` only
exports the *function* `isAppError`), so the rethrow guard never fires and
the `AppError` reaches `handleCaseDbError`: it has no `.code`, so every
branch misses and `throw dbError(err)` runs — producing a `DB_ERROR`
(500) whose message is the stringified original error
(`'AppError: ' + message`, since `new Error(x)` stringifies a non-string
argument) and whose details are `null`.  The typed error is therefore
*not* surfaced as-is. -/
def wrappedDbError (e : AppErr) : AppErr :=
  ⟨"DB_ERROR", 500, "AppError: " ++ e.message, none⟩

/-- `handleCaseDbError` of `cases/service.js`: translates MySQL failures
into the error taxonomy (it throws, so it is total into `AppErr`).  The
fall-through branch is `throw dbError(err)`: the whole error object is
passed as the *message* (stringified by the `Error` constructor to
`'Error: ' + sqlMessage`) and no details are attached. -/
def handleCaseDbError (err : MysqlErr) : AppErr :=
  if err.code == some "ER_DUP_ENTRY" then
    if msgIncludes err.message "uk_case_no" then
      conflictE "案件编号已存在" (some (.fieldErrors [("caseNo", "案件编号已存在")]))
    else
      conflictE "唯一约束冲突" none
  else if err.code == some "ER_CHECK_CONSTRAINT" then
    validationErrorE "案件数据不符合业务规则" (some (.raw err.message))
  else if err.code == some "ER_NO_REFERENCED_ROW_2"
      || err.code == some "ER_ROW_IS_REFERENCED_2" then
    validationErrorE "关联数据不存在或仍被引用，操作失败" none
  else
    ⟨"DB_ERROR", 500, "Error: " ++ err.message.getD "", none⟩

/-! ## Database state and the transactional write path -/

/-- A `case_officers` row (the autoincrement `id` is left implicit: list
order is insertion order, which is what `ORDER BY co.id ASC` returns). -/
structure CaseOfficerRow where
  caseId : Nat
  officerId : Option Int
  role : Option String
  remark : Option String
deriving DecidableEq, Repr

/-- A `case_persons` row. -/
structure CasePersonRow where
  caseId : Nat
  name : Option String
  idNo : Option String
  contact : Option String
  roleItemId : Option Int
  remark : Option String
deriving DecidableEq, Repr

/-- A stored `case_records` row: primary key plus the record fields. -/
structure StoredCase where
  id : Nat
  record : CaseRecord
deriving DecidableEq, Repr

/-- The slice of database state the case service touches.
`policeOfficerIds` is the set of `police_officers` primary keys
(the foreign-key target of `case_officers.officer_id`); `nextCaseId` models
the autoincrement counter of `case_records`. -/
structure CaseDB where
  cases : List StoredCase
  caseOfficers : List CaseOfficerRow
  casePersons : List CasePersonRow
  policeOfficerIds : List Int
  nextCaseId : Nat
deriving DecidableEq, Repr

def findCase (db : CaseDB) (id : Nat) : Option StoredCase :=
  db.cases.find? (fun s => s.id == id)

def officersOf (db : CaseDB) (caseId : Nat) : List CaseOfficerRow :=
  db.caseOfficers.filter (fun r => r.caseId == caseId)

def personsOf (db : CaseDB) (caseId : Nat) : List CasePersonRow :=
  db.casePersons.filter (fun r => r.caseId == caseId)

/-- `value || null` on a string parameter: `''`, `null` and `undefined`
all become SQL `NULL`. -/
def orNullS (v : Option String) : Option String :=
  if truthyS v then v else none

/-- `value || null` on a numeric parameter: `0`, `null` and `undefined`
all become SQL `NULL` (JS `0` is falsy). -/
def orNullI : Option Int → Option Int
  | none => none
  | some i => if i == 0 then none else some i

/-- The parameter coercions both `createCase`'s INSERT and `updateCase`'s
UPDATE apply to the (merged) record before writing it:
`deadlineDate || null`, `description || null`, `status || '在办'`,
`resultItemId || null`, all transfer/archive fields `|| null`,
`closedDate || null`; the first five parameters are passed raw. -/
def writeRecord (m : CaseRecord) : CaseRecord where
  caseNo := m.caseNo
  caseName := m.caseName
  caseTypeItemId := m.caseTypeItemId
  mainOfficerId := m.mainOfficerId
  receivedDate := m.receivedDate
  deadlineDate := orNullS m.deadlineDate
  closedDate := orNullS m.closedDate
  resultItemId := orNullI m.resultItemId
  description := orNullS m.description
  status := if truthyS m.status then m.status else some "在办"
  transferTarget := orNullS m.transferTarget
  transferReceiver := orNullS m.transferReceiver
  transferDate := orNullS m.transferDate
  transferReturnDate := orNullS m.transferReturnDate
  transferNote := orNullS m.transferNote
  archiveLocation := orNullS m.archiveLocation
  archiveDate := orNullS m.archiveDate

/-- The `case_officers` row inserted for one supplied officer:
`[caseId, officer.officerId, officer.role || null, officer.remark || null]`. -/
def mkOfficerRow (caseId : Nat) (o : OfficerInput) : CaseOfficerRow :=
  ⟨caseId, o.officerId, orNullS o.role, orNullS o.remark⟩

/-- The `case_persons` row inserted for one supplied person
(`name` and `roleItemId` are passed raw, the rest `|| null`). -/
def mkPersonRow (caseId : Nat) (p : PersonInput) : CasePersonRow :=
  ⟨caseId, p.name, orNullS p.idNo, orNullS p.contact, p.roleItemId, orNullS p.remark⟩

/-- The primitive SQL statements the case service issues inside a
transaction. -/
inductive CaseOp where
  | insertParent (id : Nat) (rec : CaseRecord)
  | updateParent (id : Nat) (rec : CaseRecord)
  | deleteOfficers (caseId : Nat)
  | insertOfficer (row : CaseOfficerRow)
  | deletePersons (caseId : Nat)
  | insertPerson (row : CasePersonRow)
  | deleteParent (id : Nat)
deriving DecidableEq, Repr

def dupEntryErr : MysqlErr :=
  ⟨some "ER_DUP_ENTRY", some "Duplicate entry for key uk_case_no"⟩

def fkErr : MysqlErr :=
  ⟨some "ER_NO_REFERENCED_ROW_2", some "Cannot add or update a child row"⟩

/-- One statement against the engine.  The engine can fail: inserting a
parent whose non-NULL `case_no` duplicates an existing row raises
`ER_DUP_ENTRY` (the `uk_case_no` unique key), and inserting a
`case_officers` row whose `officer_id` is not a `police_officers` key
raises a foreign-key error.  Deletes, updates and person inserts succeed.
`deleteParent` cascades to both child tables (`ON DELETE CASCADE`). -/
def applyCaseOp : CaseOp → CaseDB → Except MysqlErr CaseDB
  | .insertParent id rec, db =>
    match rec.caseNo with
    | some s =>
      if db.cases.any (fun c => c.record.caseNo == some s) then
        .error dupEntryErr
      else
        .ok { db with cases := db.cases ++ [⟨id, rec⟩], nextCaseId := id + 1 }
    | none => .ok { db with cases := db.cases ++ [⟨id, rec⟩], nextCaseId := id + 1 }
  | .updateParent id rec, db =>
    .ok { db with cases := db.cases.map (fun c => if c.id == id then ⟨c.id, rec⟩ else c) }
  | .deleteOfficers caseId, db =>
    .ok { db with caseOfficers := db.caseOfficers.filter (fun r => !(r.caseId == caseId)) }
  | .insertOfficer row, db =>
    match row.officerId with
    | some i =>
      if db.policeOfficerIds.contains i then
        .ok { db with caseOfficers := db.caseOfficers ++ [row] }
      else
        .error fkErr
    | none => .ok { db with caseOfficers := db.caseOfficers ++ [row] }
  | .deletePersons caseId, db =>
    .ok { db with casePersons := db.casePersons.filter (fun r => !(r.caseId == caseId)) }
  | .insertPerson row, db =>
    .ok { db with casePersons := db.casePersons ++ [row] }
  | .deleteParent id, db =>
    .ok { db with
      cases := db.cases.filter (fun c => !(c.id == id)),
      caseOfficers := db.caseOfficers.filter (fun r => !(r.caseId == id)),
      casePersons := db.casePersons.filter (fun r => !(r.caseId == id)) }

/-- Running a statement list on one connection, *without* a transaction:
each successful statement is immediately visible, and a failure leaves the
prefix of writes applied (the state in which the error is raised). -/
def runOpsConn : List CaseOp → CaseDB → CaseDB × Option MysqlErr
  | [], db => (db, none)
  | op :: rest, db =>
    match applyCaseOp op db with
    | .ok db' => runOpsConn rest db'
    | .error e => (db, some e)

/-- `withTransaction` of `src/config/db.js`, specialised to a statement
list: `beginTransaction`, run the body, `commit` on success; on any
exception `rollback` (all prefix writes are discarded, the caller's state
is unchanged) and rethrow the error. -/
def withTransactionOps (ops : List CaseOp) (db : CaseDB) : CaseDB × Option MysqlErr :=
  match runOpsConn ops db with
  | (db', none) => (db', none)
  | (_, some e) => (db, some e)

/-! ## The case service operations -/

/-- The verified-token claims a handler sees as `req.user`. -/
structure CurrentUser where
  id : Int
  permissions : List String
deriving DecidableEq, Repr

/-- `hasPermission` of `cases/service.js`. -/
def hasPermission (u : CurrentUser) (code : String) : Bool :=
  u.permissions.contains code

/-- The scalar fields of a create payload as destructured by `createCase`
(JSON bodies cannot carry `undefined`, so explicit `null` and an absent
key coincide for every use `createCase` makes of them). -/
def patchScalars (p : CasePatch) : CaseRecord where
  caseNo := p.caseNo.join
  caseName := p.caseName.join
  caseTypeItemId := p.caseTypeItemId.join
  mainOfficerId := p.mainOfficerId.join
  receivedDate := p.receivedDate.join
  deadlineDate := p.deadlineDate.join
  closedDate := p.closedDate.join
  resultItemId := p.resultItemId.join
  description := p.description.join
  status := p.status.join
  transferTarget := p.transferTarget.join
  transferReceiver := p.transferReceiver.join
  transferDate := p.transferDate.join
  transferReturnDate := p.transferReturnDate.join
  transferNote := p.transferNote.join
  archiveLocation := p.archiveLocation.join
  archiveDate := p.archiveDate.join

/-- A supplied child list after `Array.isArray(x) ? x : []`
(an absent key was already defaulted to `[]` by destructuring; an explicit
`null` survives destructuring and is normalised here). -/
def asArray (v : Option (Option (List α))) : List α :=
  match v with
  | some (some l) => l
  | _ => []

def caseNoConflictMsg : AppErr :=
  conflictE "案件编号已存在" (some (.fieldErrors [("caseNo", "案件编号已存在")]))

/-- The `caseForCheck` object `createCase` validates: the incoming scalar
fields, with `status: status || '在办'`. -/
def createCheckRecord (data : CasePatch) : CaseRecord :=
  let d := patchScalars data
  { d with status := if truthyS d.status then d.status else some "在办" }

/-- The `case_no` pre-flight of `createCase`: a truthy incoming `caseNo`
already used by an existing row. -/
def createPreflightDup (db : CaseDB) (data : CasePatch) : Bool :=
  truthyS (patchScalars data).caseNo
    && db.cases.any (fun c => c.record.caseNo == (patchScalars data).caseNo)

/-- The statements `createCase`'s transaction issues, in source order:
insert the parent, insert every supplied officer, synthesize a `主办` row
for the main officer when absent from the supplied list (`hasMainInOfficers`
tracks `officer.officerId === mainOfficerId` over the loop), insert every
supplied person. -/
def createCaseOps (db : CaseDB) (data : CasePatch) : List CaseOp :=
  [CaseOp.insertParent db.nextCaseId (writeRecord (patchScalars data))]
    ++ (asArray data.officers).map
        (fun o => CaseOp.insertOfficer (mkOfficerRow db.nextCaseId o))
    ++ (if (asArray data.officers).any
            (fun o => o.officerId == (patchScalars data).mainOfficerId) then []
        else [CaseOp.insertOfficer
          ⟨db.nextCaseId, (patchScalars data).mainOfficerId, some "主办", none⟩])
    ++ (asArray data.persons).map
        (fun p => CaseOp.insertPerson (mkPersonRow db.nextCaseId p))

/-- `createCase` of `cases/service.js`: validate the business rules on the
incoming fields (with `status || '在办'`), pre-flight the `case_no`
uniqueness, then run `createCaseOps` inside one transaction.  A MySQL
failure is translated by `handleCaseDbError`.  The catch's
`if (err && err.isAppError) throw err` guard tests a property that is
never set, so the pre-flight `Conflict` (raised inside the `try`) is
wrapped into `DB_ERROR` by `wrappedDbError`; only the validation error,
raised before the `try`, propagates typed.  Returns the possibly-updated
database and the new id or the error. -/
def createCase (db : CaseDB) (data : CasePatch) : CaseDB × Except AppErr Nat :=
  match validateCaseBusinessRules (createCheckRecord data) with
  | some e => (db, .error e)
  | none =>
    if createPreflightDup db data then
      (db, .error (wrappedDbError caseNoConflictMsg))
    else
      match withTransactionOps (createCaseOps db data) db with
      | (db', none) => (db', .ok db.nextCaseId)
      | (dbR, some e) => (dbR, .error (handleCaseDbError e))

/-- The officer-reconciliation statements of `updateCase`: present key
(even `null` or `[]`) → delete all rows of the case, re-insert the supplied
list, and synthesize the merged main officer with role `主办` when absent
from it; absent key → no statements. -/
def officerOpsOf (id : Nat) (merged : CaseRecord)
    (officers : Option (Option (List OfficerInput))) : List CaseOp :=
  match officers with
  | none => []
  | some v =>
    let list := v.getD []
    let hasMain := list.any (fun o => o.officerId == merged.mainOfficerId)
    CaseOp.deleteOfficers id
      :: list.map (fun o => CaseOp.insertOfficer (mkOfficerRow id o))
      ++ (if hasMain then []
          else [CaseOp.insertOfficer ⟨id, merged.mainOfficerId, some "主办", none⟩])

/-- The person-reconciliation statements of `updateCase`. -/
def personOpsOf (id : Nat) (persons : Option (Option (List PersonInput))) : List CaseOp :=
  match persons with
  | none => []
  | some v =>
    CaseOp.deletePersons id :: (v.getD []).map (fun p => CaseOp.insertPerson (mkPersonRow id p))

/-- The `case_no` pre-flight of `updateCase`: a truthy incoming `caseNo`
that differs from the existing one and is already used by a different row. -/
def caseNoPreflightConflict (db : CaseDB) (id : Nat) (data : CasePatch)
    (existing : CaseRecord) : Bool :=
  truthyPS data.caseNo && !(data.caseNo.join == existing.caseNo)
    && db.cases.any (fun c => c.record.caseNo == data.caseNo.join && !(c.id == id))

/-- The statements `updateCase`'s transaction issues: the parent UPDATE,
then each child collection's reconciliation. -/
def updateCaseOps (id : Nat) (merged : CaseRecord) (data : CasePatch) : List CaseOp :=
  CaseOp.updateParent id (writeRecord merged)
    :: officerOpsOf id merged data.officers
    ++ personOpsOf id data.persons

/-- `updateCase` of `cases/service.js`: load the row (`NotFound` when
absent), authorize (main officer or `case:view_all`), pre-flight a changed
`case_no` against other rows, merge `{...existing, ...data}`, validate the
merged record, then run the parent UPDATE and the child reconciliations in
one transaction.  The whole body sits inside the `try`, and the catch's
`err.isAppError` property guard never fires, so every typed error raised
here (`NotFound`, `Forbidden`, `Conflict`, `ValidationError`) reaches the
caller wrapped as `DB_ERROR` via `wrappedDbError`; genuine MySQL errors
are translated by `handleCaseDbError`. -/
def updateCase (db : CaseDB) (id : Nat) (data : CasePatch) (u : CurrentUser) :
    CaseDB × Except AppErr Nat :=
  match findCase db id with
  | none => (db, .error (wrappedDbError (notFoundE "案件不存在")))
  | some sc =>
    if !(sc.record.mainOfficerId == some u.id) && !(hasPermission u "case:view_all") then
      (db, .error (wrappedDbError (forbiddenE "无权修改该案件")))
    else
      if caseNoPreflightConflict db id data sc.record then
        (db, .error (wrappedDbError caseNoConflictMsg))
      else
        match validateCaseBusinessRules (mergeCase sc.record data) with
        | some e => (db, .error (wrappedDbError e))
        | none =>
          match withTransactionOps (updateCaseOps id (mergeCase sc.record data) data) db with
          | (db', none) => (db', .ok id)
          | (dbR, some e) => (dbR, .error (handleCaseDbError e))

/-- `deleteCase` of `cases/service.js`: `NotFound` when absent, `Forbidden`
unless main officer or admin, `ValidationError` unless the status is
`在办`, then a cascading delete in a transaction.  As in `updateCase`, the
broken `err.isAppError` guard wraps all these typed errors into
`DB_ERROR`. -/
def deleteCase (db : CaseDB) (id : Nat) (u : CurrentUser) :
    CaseDB × Except AppErr Nat :=
  match findCase db id with
  | none => (db, .error (wrappedDbError (notFoundE "案件不存在")))
  | some sc =>
    if !(sc.record.mainOfficerId == some u.id) && !(hasPermission u "case:view_all") then
      (db, .error (wrappedDbError (forbiddenE "无权删除该案件")))
    else if !(sc.record.status == some "在办") then
      (db, .error (wrappedDbError (validationErrorE "仅允许删除状态为“在办”的案件"
        (some (.fieldErrors [("status", "仅允许删除状态为“在办”的案件")])))))
    else
      match withTransactionOps [CaseOp.deleteParent id] db with
      | (db', none) => (db', .ok id)
      | (dbR, some e) => (dbR, .error (handleCaseDbError e))

/-- The aggregate returned by `getCaseDetail`. -/
structure CaseDetail where
  record : CaseRecord
  officers : List CaseOfficerRow
  persons : List CasePersonRow
deriving DecidableEq, Repr

/-- `getCaseDetail` of `cases/service.js`: `NotFound` when absent, then —
unless the caller has `case:view_all` — `Forbidden` unless the caller is
the main officer *or* appears in `case_officers` for the case. -/
def getCaseDetail (db : CaseDB) (id : Nat) (u : CurrentUser) :
    Except AppErr CaseDetail :=
  match findCase db id with
  | none => .error (notFoundE "案件不存在")
  | some sc =>
    if !(hasPermission u "case:view_all")
        && !(sc.record.mainOfficerId == some u.id
              || db.caseOfficers.any (fun co => co.caseId == id && co.officerId == some u.id)) then
      .error (forbiddenE "无权查看该案件")
    else
      .ok ⟨sc.record, officersOf db id, personsOf db id⟩

/-- The database after `updateCase`'s parent UPDATE statement. -/
def parentUpdated (db : CaseDB) (id : Nat) (rec : CaseRecord) : CaseDB :=
  { db with cases := db.cases.map (fun c => if c.id == id then ⟨c.id, rec⟩ else c) }

/-- The rows inserted by the officer reconciliation of `updateCase`. -/
def reconciledOfficerRows (id : Nat) (merged : CaseRecord)
    (v : Option (List OfficerInput)) : List CaseOfficerRow :=
  (v.getD []).map (mkOfficerRow id)
    ++ (if (v.getD []).any (fun o => o.officerId == merged.mainOfficerId) then []
        else [⟨id, merged.mainOfficerId, some "主办", none⟩])

/-! ## Nine-small-place and inspection partial updates (places service) -/

/-- A `nine_small_places` row as read back by `updatePlace`. -/
structure PlaceRecord where
  name : Option String
  address : Option String
  communityId : Option Int
  type : Option String
  typeItemId : Option Int
  gridName : Option String
  principalName : Option String
  contactPhone : Option String
  remark : Option String
deriving DecidableEq, Repr

/-- The JSON body of a place update (absent / explicit-null / value). -/
structure PlacePatch where
  name : Option (Option String) := none
  address : Option (Option String) := none
  communityId : Option (Option Int) := none
  type : Option (Option String) := none
  typeItemId : Option (Option Int) := none
  gridName : Option (Option String) := none
  principalName : Option (Option String) := none
  contactPhone : Option (Option String) := none
  remark : Option (Option String) := none
deriving DecidableEq, Repr

/-- JS nullish coalescing `data.f ?? existing.f`: both an absent key and an
explicit `null` fall back to the existing value. -/
def coalesceJS (p : Option (Option α)) (e : Option α) : Option α :=
  match p with
  | some (some v) => some v
  | _ => e

/-- JS presence test `data.f !== undefined ? data.f : existing.f`: an
explicit `null` is taken (and replaces the existing value with `null`);
only an absent key keeps it. -/
def presentJS (p : Option (Option α)) (e : Option α) : Option α :=
  p.getD e

/-- The `merged` object of `updatePlace`: `name`, `address`, `type`,
`gridName`, `principalName`, `contactPhone` and `remark` are merged with
`??` (nullish coalescing), while `communityId` and `typeItemId` are merged
with an explicit `!== undefined` test. -/
def mergePlace (e : PlaceRecord) (p : PlacePatch) : PlaceRecord where
  name := coalesceJS p.name e.name
  address := coalesceJS p.address e.address
  communityId := presentJS p.communityId e.communityId
  type := coalesceJS p.type e.type
  typeItemId := presentJS p.typeItemId e.typeItemId
  gridName := coalesceJS p.gridName e.gridName
  principalName := coalesceJS p.principalName e.principalName
  contactPhone := coalesceJS p.contactPhone e.contactPhone
  remark := coalesceJS p.remark e.remark

/-- A `nine_small_inspections` row (`has_hidden_danger` is a 0/1 column). -/
structure InspectionRecord where
  placeId : Option Int
  inspectDate : Option String
  inspectorOfficerId : Option Int
  inspectorName : Option String
  description : Option String
  hasHiddenDanger : Option Int
  rectificationAdvice : Option String
  rectificationStatusId : Option Int
  rectifiedDate : Option String
deriving DecidableEq, Repr

/-- The JSON body of an inspection update.  `hasHiddenDanger` is a JSON
boolean, `null`, or absent. -/
structure InspectionPatch where
  placeId : Option (Option Int) := none
  inspectDate : Option (Option String) := none
  inspectorOfficerId : Option (Option Int) := none
  inspectorName : Option (Option String) := none
  description : Option (Option String) := none
  hasHiddenDanger : Option (Option Bool) := none
  rectificationAdvice : Option (Option String) := none
  rectificationStatusId : Option (Option Int) := none
  rectifiedDate : Option (Option String) := none
deriving DecidableEq, Repr

/-- The `merged` object of `updateInspection` (the merged
`hasHiddenDanger` is a boolean). -/
structure MergedInspection where
  placeId : Option Int
  inspectDate : Option String
  inspectorOfficerId : Option Int
  inspectorName : Option String
  description : Option String
  hasHiddenDanger : Bool
  rectificationAdvice : Option String
  rectificationStatusId : Option Int
  rectifiedDate : Option String
deriving DecidableEq, Repr

/-- The merge of `updateInspection`: every field uses the `!== undefined`
test, except `hasHiddenDanger` which is taken from the patch only when it
is a boolean (`typeof data.hasHiddenDanger === 'boolean'`) and otherwise
falls back to `existing.has_hidden_danger === 1`. -/
def mergeInspection (e : InspectionRecord) (p : InspectionPatch) : MergedInspection where
  placeId := presentJS p.placeId e.placeId
  inspectDate := presentJS p.inspectDate e.inspectDate
  inspectorOfficerId := presentJS p.inspectorOfficerId e.inspectorOfficerId
  inspectorName := presentJS p.inspectorName e.inspectorName
  description := presentJS p.description e.description
  hasHiddenDanger :=
    match p.hasHiddenDanger with
    | some (some b) => b
    | _ => e.hasHiddenDanger == some 1
  rectificationAdvice := presentJS p.rectificationAdvice e.rectificationAdvice
  rectificationStatusId := presentJS p.rectificationStatusId e.rectificationStatusId
  rectifiedDate := presentJS p.rectifiedDate e.rectifiedDate

/-! ## Authentication service (`src/modules/auth/service.js`) -/

/-- A `police_officers` row as selected by `findOfficerByBadgeNo`. -/
structure OfficerAccount where
  id : Int
  name : Option String
  badgeNo : Option String
  phone : Option String
  status : Option String
  isActive : Option Int
  passwordHash : Option String
deriving DecidableEq, Repr

/-- The output of `loadRolesAndPermissions` (role codes, role names and the
union of the roles' permission codes). -/
structure RolesPerms where
  roles : List String
  roleNames : List String
  permissions : List String
deriving DecidableEq, Repr

/-- The payload signed into the session token by `login` / `register`. -/
structure TokenClaims where
  id : Int
  badgeNo : Option String
  name : Option String
  roles : List String
  permissions : List String
deriving DecidableEq, Repr

/-- The `userInfo` produced by `mapOfficerToUser`. -/
structure UserInfo where
  id : Int
  name : Option String
  badgeNo : Option String
  phone : Option String
  status : Option String
  isActive : Bool
  roles : List String
  roleNames : List String
  permissions : List String
deriving DecidableEq, Repr

/-- `mapOfficerToUser` of `auth/service.js`: `isActive` is the
normalisation `row.is_active === 1 || row.is_active === true || row.is_active === '1'`. -/
def mapOfficerToUser (row : OfficerAccount) (extra : RolesPerms) : UserInfo where
  id := row.id
  name := row.name
  badgeNo := row.badgeNo
  phone := row.phone
  status := row.status
  isActive := row.isActive == some 1
  roles := extra.roles
  roleNames := extra.roleNames
  permissions := extra.permissions

/-- `login`'s return value: the signed token payload and the user info. -/
structure LoginResult where
  token : TokenClaims
  user : UserInfo
deriving DecidableEq, Repr

def findOfficerByBadgeNo (officers : List OfficerAccount) (badgeNo : Option String) :
    Option OfficerAccount :=
  officers.find? (fun o => o.badgeNo == badgeNo)

/-- `login` of `auth/service.js`.  `verify` stands for
`bcrypt.compare(password, hash)`; `extra` stands for
`loadRolesAndPermissions` on the officer's id.  The checks, in source
order: unknown badge → `Unauthorized`; `status === 'LOCKED'` →
`Unauthorized`; password mismatch (against `password_hash || ''`) →
`Unauthorized`; otherwise the token is signed and returned.  Neither
`is_active` nor any other `status` value is consulted. -/
def login (officers : List OfficerAccount) (extra : Int → RolesPerms)
    (verify : String → String → Bool) (badgeNo : Option String) (password : String) :
    Except AppErr LoginResult :=
  match findOfficerByBadgeNo officers badgeNo with
  | none => .error (unauthorizedE "警号或密码错误")
  | some o =>
    if o.status == some "LOCKED" then
      .error (unauthorizedE "账号已锁定，请联系管理员")
    else if !(verify password (o.passwordHash.getD "")) then
      .error (unauthorizedE "警号或密码错误")
    else
      let user := mapOfficerToUser o (extra o.id)
      .ok ⟨⟨user.id, user.badgeNo, user.name, user.roles, user.permissions⟩, user⟩

/-- `register` of `auth/service.js`.  `insertOutcome` is the result of the
INSERT against the storage engine (under a race with a concurrent register
of the same badge number it is an `ER_DUP_ENTRY` failure).  Source order:
empty badge/name/password → `ValidationError`; an existing row with the
badge number (pre-flight) → `Conflict`; any INSERT failure — whatever its
code — is caught, logged, and rethrown as `dbError('注册失败，请稍后重试')`. -/
def register (officers : List OfficerAccount) (insertOutcome : Except MysqlErr Int)
    (badgeNo name password phone : Option String) :
    Except AppErr LoginResult :=
  if !truthyS badgeNo || !truthyS name || !truthyS password then
    .error (validationErrorE "警号、姓名、密码不能为空" none)
  else
    match findOfficerByBadgeNo officers badgeNo with
    | some _ => .error (conflictE "警号已存在，请联系管理员或直接登录" none)
    | none =>
      match insertOutcome with
      | .error _ => .error (dbErrorE "注册失败，请稍后重试" none)
      | .ok newId =>
        let row : OfficerAccount :=
          ⟨newId, name, badgeNo, orNullS phone, some "ACTIVE", some 1, none⟩
        let user := mapOfficerToUser row ⟨[], [], []⟩
        .ok ⟨⟨user.id, user.badgeNo, user.name, user.roles, user.permissions⟩, user⟩

/-! ## The error-handling middleware (`src/middleware/errorHandler.js`) -/

/-- An error reaching the boundary middleware: an `AppError`, a Joi
validation error (`err.isJoi`), or any other thrown value, carrying a
`name`, a `message` and a `stack` (the raw internals of the failure). -/
inductive BoundaryErr where
  | app (e : AppErr)
  | joi (fieldErrors : List (String × String))
  | other (name : String) (message : String) (stack : String)
deriving DecidableEq, Repr

/-- The JSON body and HTTP status the middleware sends
(`stack` is attached only when `NODE_ENV !== 'production'`). -/
structure HttpResponse where
  status : Nat
  success : Bool
  errorCode : String
  message : String
  details : Option ErrDetails
  stack : Option String
deriving DecidableEq, Repr

/-- A server-side log record emitted by the middleware
(`logger.error('Unhandled error', { err })` keeps the full error). -/
structure LogRecord where
  label : String
  errMessage : String
  errStack : String
deriving DecidableEq, Repr

/-- The `stack` of an `AppError`: captured where the error object is
constructed, so it traces server code, never the underlying failure.  The
model keeps only this constant rendering. -/
def appErrStack (a : AppErr) : String :=
  "AppError: " ++ a.message

/-- `errorHandler` of `src/middleware/errorHandler.js`.  A non-`AppError`
is converted: Joi errors to a `ValidationError` with the field map, JWT
errors (by `err.name`) to `Unauthorized`, anything else to
`internalError('服务器内部错误')` after logging the full error.  The
response carries the (converted) error's code, status, message and
details, plus — outside production — the *converted* error's stack. -/
def errorHandler (isProduction : Bool) (err : BoundaryErr) :
    HttpResponse × Option LogRecord :=
  match err with
  | .app a =>
    (⟨a.status, false, a.errorCode, a.message, a.details,
      if isProduction then none else some (appErrStack a)⟩, none)
  | .joi fs =>
    let a := validationErrorE "参数校验失败" (some (.fieldErrors fs))
    (⟨a.status, false, a.errorCode, a.message, a.details,
      if isProduction then none else some (appErrStack a)⟩, none)
  | .other name message stack =>
    if name == "JsonWebTokenError" || name == "TokenExpiredError" then
      let a := unauthorizedE "登录状态无效或已过期"
      (⟨a.status, false, a.errorCode, a.message, a.details,
        if isProduction then none else some (appErrStack a)⟩, none)
    else
      let a := internalErrorE "服务器内部错误" none
      (⟨a.status, false, a.errorCode, a.message, a.details,
        if isProduction then none else some (appErrStack a)⟩,
        some ⟨"Unhandled error", message, stack⟩)

/-! ## Concrete sample data used to exercise the operations -/

/-- A case record with every column NULL. -/
def emptyCase : CaseRecord :=
  ⟨none, none, none, none, none, none, none, none, none, none, none, none, none,
   none, none, none, none⟩

/-- A closed-status record whose deadline also precedes the received date
and whose closure fields are both missing. -/
def closedMaskedCase : CaseRecord :=
  { emptyCase with
    receivedDate := some "2024-01-02", deadlineDate := some "2024-01-01",
    status := some "已结" }

/-- A transferred-status record whose deadline also precedes the received
date and whose transfer fields are both missing. -/
def transferMaskedCase : CaseRecord :=
  { emptyCase with
    receivedDate := some "2024-01-02", deadlineDate := some "2024-01-01",
    status := some "移交" }

/-- A record violating only the date-ordering rule. -/
def dateOrderViolCase : CaseRecord :=
  { emptyCase with
    receivedDate := some "2024-01-02", deadlineDate := some "2024-01-01" }

/-- An open case owned by officer 7. -/
def sampleCase : CaseRecord :=
  { emptyCase with
    caseNo := some "C-1", caseName := some "某案", mainOfficerId := some 7,
    receivedDate := some "2024-01-01", status := some "在办" }

/-- A database holding `sampleCase` as row 1, with officer 5 as a
participant (not the main officer) and officers 5 and 7 registered. -/
def sampleDB : CaseDB :=
  ⟨[⟨1, sampleCase⟩], [⟨1, some 5, none, none⟩], [], [5, 7], 2⟩

/-- A database holding `sampleCase` as row 1 where only officer 7 exists in
`police_officers` (officer 5 violates the foreign key). -/
def narrowDB : CaseDB :=
  ⟨[⟨1, sampleCase⟩], [⟨1, some 7, some "主办", none⟩], [], [7], 2⟩

/-- An empty database in which officer 7 exists. -/
def freshDB : CaseDB := ⟨[], [], [], [7], 1⟩

def user5 : CurrentUser := ⟨5, []⟩

def user7 : CurrentUser := ⟨7, []⟩

/-- An update payload replacing the officers list with the empty list. -/
def emptyOfficersPatch : CasePatch := { officers := some (some []) }

/-- An update payload whose officers list names officer 5, who is absent
from `police_officers` in `narrowDB`. -/
def fkFailPatch : CasePatch := { officers := some (some [⟨some 5, none, none⟩]) }

/-- The create payload of the spec's example: main officer 7 supplied in
the officers list with no role marked. -/
def createMainUnmarked : CasePatch :=
  { caseNo := some (some "C-001"), status := some (some "在办"),
    receivedDate := some (some "2024-01-01"), mainOfficerId := some (some 7),
    officers := some (some [⟨some 7, none, none⟩]) }

/-- A create payload with main officer 7 and no officers key. -/
def createNoOfficers : CasePatch :=
  { caseNo := some (some "C-002"), receivedDate := some (some "2024-01-01"),
    mainOfficerId := some (some 7) }

/-- A create payload reusing `sampleCase`'s case number. -/
def dupCaseNoPatch : CasePatch :=
  { caseNo := some (some "C-1"), receivedDate := some (some "2024-01-01") }

/-- A fully-populated nine-small-place row. -/
def samplePlace : PlaceRecord :=
  ⟨some "小吃店", some "幸福路1号", some 1, some "餐饮", some 2, some "G1",
   some "王某", some "13800000000", some "备注"⟩

/-- A place patch setting `gridName` to explicit `null`. -/
def nullGridPatch : PlacePatch := { gridName := some none }

/-- An officer account that is inactive (`is_active = 0`,
`status = 'INACTIVE'`) but not locked. -/
def inactiveOfficer : OfficerAccount :=
  ⟨7, some "张三", some "B001", none, some "INACTIVE", some 0, some "pw"⟩

/-! ## Supporting lemmas -/

theorem withTransactionOps_rollback (ops : List CaseOp) (db dbR : CaseDB) (e : MysqlErr)
    (h : withTransactionOps ops db = (dbR, some e)) : dbR = db := by
  unfold withTransactionOps at h
  rcases hrun : runOpsConn ops db with ⟨db1, e1⟩
  rw [hrun] at h
  cases e1 <;> simp_all

theorem validateCaseBusinessRules_code (c : CaseRecord) (e : AppErr)
    (h : validateCaseBusinessRules c = some e) : e.errorCode = "VALIDATION_ERROR" := by
  unfold validateCaseBusinessRules at h
  split at h
  · cases h; rfl
  · split at h
    · cases h; rfl
    · split at h
      · cases h; rfl
      · split at h
        · cases h; rfl
        · cases h

theorem handleCaseDbError_code (e : MysqlErr) :
    (handleCaseDbError e).errorCode = "CONFLICT"
      ∨ (handleCaseDbError e).errorCode = "VALIDATION_ERROR"
      ∨ (handleCaseDbError e).errorCode = "DB_ERROR" := by
  unfold handleCaseDbError
  split
  · split
    · left; rfl
    · left; rfl
  · split
    · right; left; rfl
    · split
      · right; left; rfl
      · right; right; rfl

theorem auth_pass_of_or (a b : Bool) (h : (a || b) = true) : (!a && !b) = false := by
  cases a <;> cases b <;> simp_all


theorem withTransactionOps_ok (ops : List CaseOp) (db db' : CaseDB)
    (h : withTransactionOps ops db = (db', none)) :
    runOpsConn ops db = (db', none) := by
  unfold withTransactionOps at h
  rcases hrun : runOpsConn ops db with ⟨db1, eopt⟩
  rw [hrun] at h
  cases eopt <;> simp_all

theorem runOpsConn_append (xs ys : List CaseOp) (db : CaseDB) :
    runOpsConn (xs ++ ys) db =
      match runOpsConn xs db with
      | (db1, none) => runOpsConn ys db1
      | (db1, some e) => (db1, some e) := by
  induction xs generalizing db with
  | nil => rfl
  | cons op rest ih =>
    show runOpsConn (op :: (rest ++ ys)) db = _
    cases happ : applyCaseOp op db with
    | ok db2 => simp [runOpsConn, happ, ih]
    | error e => simp [runOpsConn, happ]

theorem applyCaseOp_insertOfficer_ok (r : CaseOfficerRow) (db db1 : CaseDB)
    (h : applyCaseOp (.insertOfficer r) db = .ok db1) :
    db1 = { db with caseOfficers := db.caseOfficers ++ [r] } := by
  simp only [applyCaseOp] at h
  split at h
  · split at h
    · exact (Except.ok.inj h).symm
    · exact Except.noConfusion h
  · exact (Except.ok.inj h).symm

theorem applyCaseOp_insertParent_ok (id : Nat) (rec : CaseRecord) (db db1 : CaseDB)
    (h : applyCaseOp (.insertParent id rec) db = .ok db1) :
    db1 = { db with cases := db.cases ++ [⟨id, rec⟩], nextCaseId := id + 1 } := by
  simp only [applyCaseOp] at h
  split at h
  · split at h
    · exact Except.noConfusion h
    · exact (Except.ok.inj h).symm
  · exact (Except.ok.inj h).symm

theorem runOpsConn_insertOfficers_ok (rows : List CaseOfficerRow) (db db' : CaseDB)
    (h : runOpsConn (rows.map CaseOp.insertOfficer) db = (db', none)) :
    db' = { db with caseOfficers := db.caseOfficers ++ rows } := by
  induction rows generalizing db with
  | nil =>
    simp [runOpsConn] at h
    simp [← h]
  | cons r rest ih =>
    rw [List.map_cons] at h
    cases happ : applyCaseOp (.insertOfficer r) db with
    | ok db2 =>
      have hstep : runOpsConn (CaseOp.insertOfficer r :: rest.map CaseOp.insertOfficer) db
          = runOpsConn (rest.map CaseOp.insertOfficer) db2 := by
        simp [runOpsConn, happ]
      rw [hstep] at h
      rw [ih db2 h, applyCaseOp_insertOfficer_ok r db db2 happ]
      simp
    | error e =>
      have hstep : runOpsConn (CaseOp.insertOfficer r :: rest.map CaseOp.insertOfficer) db
          = (db, some e) := by
        simp [runOpsConn, happ]
      rw [hstep] at h
      simp at h

theorem runOpsConn_insertPersons (rows : List CasePersonRow) (db : CaseDB) :
    runOpsConn (rows.map CaseOp.insertPerson) db
      = ({ db with casePersons := db.casePersons ++ rows }, none) := by
  induction rows generalizing db with
  | nil => simp [runOpsConn]
  | cons r rest ih =>
    rw [List.map_cons]
    show runOpsConn (CaseOp.insertPerson r :: rest.map CaseOp.insertPerson) db = _
    simp [runOpsConn, applyCaseOp, ih]

theorem officerOpsOf_eq_map (id : Nat) (merged : CaseRecord)
    (v : Option (List OfficerInput)) :
    officerOpsOf id merged (some v)
      = CaseOp.deleteOfficers id
          :: (reconciledOfficerRows id merged v).map CaseOp.insertOfficer := by
  unfold officerOpsOf reconciledOfficerRows
  rw [List.map_append, List.map_map]
  cases hm : (v.getD []).any (fun o => o.officerId == merged.mainOfficerId) <;>
    simp only [hm] <;> simp [Function.comp]

theorem officerBlock_run_ok (id : Nat) (merged : CaseRecord)
    (v : Option (List OfficerInput)) (db db' : CaseDB)
    (h : runOpsConn (officerOpsOf id merged (some v)) db = (db', none)) :
    db' = { db with caseOfficers :=
      db.caseOfficers.filter (fun r => !(r.caseId == id))
        ++ reconciledOfficerRows id merged v } := by
  rw [officerOpsOf_eq_map] at h
  have hstep : runOpsConn
      (CaseOp.deleteOfficers id :: (reconciledOfficerRows id merged v).map CaseOp.insertOfficer) db
      = runOpsConn ((reconciledOfficerRows id merged v).map CaseOp.insertOfficer)
          { db with caseOfficers := db.caseOfficers.filter (fun r => !(r.caseId == id)) } := by
    simp [runOpsConn, applyCaseOp]
  rw [hstep] at h
  exact runOpsConn_insertOfficers_ok _ _ _ h

theorem personBlock_run (id : Nat) (v : Option (List PersonInput)) (db : CaseDB) :
    runOpsConn (personOpsOf id (some v)) db
      = ({ db with casePersons :=
            db.casePersons.filter (fun r => !(r.caseId == id))
              ++ (v.getD []).map (mkPersonRow id) }, none) := by
  have hops : personOpsOf id (some v)
      = CaseOp.deletePersons id
          :: ((v.getD []).map (mkPersonRow id)).map CaseOp.insertPerson := by
    simp [personOpsOf, List.map_map, Function.comp]
  rw [hops]
  have hstep : runOpsConn
      (CaseOp.deletePersons id :: ((v.getD []).map (mkPersonRow id)).map CaseOp.insertPerson)
      db = runOpsConn (((v.getD []).map (mkPersonRow id)).map CaseOp.insertPerson)
          { db with casePersons := db.casePersons.filter (fun r => !(r.caseId == id)) } := by
    simp [runOpsConn, applyCaseOp]
  rw [hstep, runOpsConn_insertPersons]

theorem updateCase_ok_split (db : CaseDB) (id : Nat) (data : CasePatch) (u : CurrentUser)
    (sc : StoredCase) (db' : CaseDB) (n : Nat)
    (hfind : findCase db id = some sc)
    (hok : updateCase db id data u = (db', .ok n)) :
    n = id
      ∧ runOpsConn (updateCaseOps id (mergeCase sc.record data) data) db = (db', none) := by
  unfold updateCase at hok
  split at hok
  · rename_i heq
    rw [hfind] at heq
    cases heq
  · rename_i sc2 heq
    rw [hfind] at heq
    cases heq
    split at hok
    · cases hok
    · split at hok
      · cases hok
      · split at hok
        · cases hok
        · split at hok
          · rename_i htx
            cases hok
            exact ⟨rfl, withTransactionOps_ok _ _ _ htx⟩
          · cases hok

theorem createCase_ok_split (db : CaseDB) (data : CasePatch) (db' : CaseDB) (n : Nat)
    (hok : createCase db data = (db', .ok n)) :
    n = db.nextCaseId
      ∧ runOpsConn (createCaseOps db data) db = (db', none) := by
  unfold createCase at hok
  split at hok
  · cases hok
  · split at hok
    · cases hok
    · split at hok
      · rename_i htx
        cases hok
        exact ⟨rfl, withTransactionOps_ok _ _ _ htx⟩
      · cases hok

theorem filter_not_then_self (l : List CaseOfficerRow) (id : Nat) :
    (l.filter (fun r => !(r.caseId == id))).filter (fun r => r.caseId == id) = [] := by
  induction l with
  | nil => rfl
  | cons r rest ih =>
    cases hr : (r.caseId == id) <;> simp [List.filter, hr, ih]

theorem filter_not_then_self_persons (l : List CasePersonRow) (id : Nat) :
    (l.filter (fun r => !(r.caseId == id))).filter (fun r => r.caseId == id) = [] := by
  induction l with
  | nil => rfl
  | cons r rest ih =>
    cases hr : (r.caseId == id) <;> simp [List.filter, hr, ih]

theorem filter_mkOfficerRows (id : Nat) (os : List OfficerInput) :
    (os.map (mkOfficerRow id)).filter (fun r => r.caseId == id) = os.map (mkOfficerRow id) := by
  induction os with
  | nil => rfl
  | cons o rest ih => simp [mkOfficerRow, List.filter, ih]

theorem filter_mkPersonRows (id : Nat) (ps : List PersonInput) :
    (ps.map (mkPersonRow id)).filter (fun r => r.caseId == id) = ps.map (mkPersonRow id) := by
  induction ps with
  | nil => rfl
  | cons p rest ih => simp [mkPersonRow, List.filter, ih]

theorem filter_reconciledOfficerRows (id : Nat) (merged : CaseRecord)
    (v : Option (List OfficerInput)) :
    (reconciledOfficerRows id merged v).filter (fun r => r.caseId == id)
      = reconciledOfficerRows id merged v := by
  unfold reconciledOfficerRows
  rw [List.filter_append, filter_mkOfficerRows]
  cases hm : (v.getD []).any (fun o => o.officerId == merged.mainOfficerId) <;> simp

theorem updateCase_ok_state (db : CaseDB) (id : Nat) (data : CasePatch) (u : CurrentUser)
    (sc : StoredCase) (db' : CaseDB) (n : Nat)
    (hfind : findCase db id = some sc)
    (hok : updateCase db id data u = (db', .ok n)) :
    (db'.caseOfficers = match data.officers with
      | none => db.caseOfficers
      | some v => db.caseOfficers.filter (fun r => !(r.caseId == id))
          ++ reconciledOfficerRows id (mergeCase sc.record data) v)
    ∧ (db'.casePersons = match data.persons with
      | none => db.casePersons
      | some v => db.casePersons.filter (fun r => !(r.caseId == id))
          ++ (v.getD []).map (mkPersonRow id)) := by
  obtain ⟨-, hrun⟩ := updateCase_ok_split db id data u sc db' n hfind hok
  unfold updateCaseOps at hrun
  rw [List.cons_append] at hrun
  have hpeel : runOpsConn (CaseOp.updateParent id (writeRecord (mergeCase sc.record data))
      :: (officerOpsOf id (mergeCase sc.record data) data.officers
          ++ personOpsOf id data.persons)) db
      = runOpsConn (officerOpsOf id (mergeCase sc.record data) data.officers
          ++ personOpsOf id data.persons)
        (parentUpdated db id (writeRecord (mergeCase sc.record data))) := by
    simp [runOpsConn, applyCaseOp, parentUpdated]
  rw [hpeel, runOpsConn_append] at hrun
  rcases hO : data.officers with - | v
  · rw [hO] at hrun
    replace hrun : runOpsConn (personOpsOf id data.persons)
        (parentUpdated db id (writeRecord (mergeCase sc.record data))) = (db', none) := hrun
    rcases hP : data.persons with - | w
    · rw [hP] at hrun
      replace hrun : ((parentUpdated db id (writeRecord (mergeCase sc.record data)), none)
          : CaseDB × Option MysqlErr) = (db', none) := hrun
      cases hrun
      exact ⟨rfl, rfl⟩
    · rw [hP, personBlock_run] at hrun
      cases hrun
      exact ⟨rfl, rfl⟩
  · rw [hO] at hrun
    rcases hOff : runOpsConn (officerOpsOf id (mergeCase sc.record data) (some v))
        (parentUpdated db id (writeRecord (mergeCase sc.record data)))
      with ⟨db2, eopt⟩
    rw [hOff] at hrun
    cases eopt
    · replace hrun : runOpsConn (personOpsOf id data.persons) db2 = (db', none) := hrun
      have hdb2 := officerBlock_run_ok id (mergeCase sc.record data) v _ _ hOff
      rcases hP : data.persons with - | w
      · rw [hP] at hrun
        replace hrun : ((db2, none) : CaseDB × Option MysqlErr) = (db', none) := hrun
        cases hrun
        rw [hdb2]
        exact ⟨rfl, rfl⟩
      · rw [hP, personBlock_run] at hrun
        cases hrun
        rw [hdb2]
        exact ⟨rfl, rfl⟩
    · rename_i e
      replace hrun : ((db2, some e) : CaseDB × Option MysqlErr) = (db', none) := hrun
      simp at hrun

theorem createCaseOps_eq (db : CaseDB) (data : CasePatch) :
    createCaseOps db data
      = CaseOp.insertParent db.nextCaseId (writeRecord (patchScalars data))
          :: ((reconciledOfficerRows db.nextCaseId (patchScalars data)
                (some (asArray data.officers))).map CaseOp.insertOfficer
              ++ ((asArray data.persons).map (mkPersonRow db.nextCaseId)).map
                  CaseOp.insertPerson) := by
  unfold createCaseOps reconciledOfficerRows
  cases hm : (asArray data.officers).any
      (fun o => o.officerId == (patchScalars data).mainOfficerId) <;>
    simp only [hm, Option.getD_some] <;>
    simp [List.map_map, List.map_append, Function.comp, List.append_assoc] <;>
    rfl

theorem createCase_ok_state (db : CaseDB) (data : CasePatch) (db' : CaseDB) (n : Nat)
    (hok : createCase db data = (db', .ok n)) :
    n = db.nextCaseId
      ∧ db'.caseOfficers = db.caseOfficers
          ++ reconciledOfficerRows db.nextCaseId (patchScalars data)
              (some (asArray data.officers))
      ∧ db'.casePersons = db.casePersons
          ++ (asArray data.persons).map (mkPersonRow db.nextCaseId) := by
  obtain ⟨hn, hrun⟩ := createCase_ok_split db data db' n hok
  rw [createCaseOps_eq] at hrun
  rcases happ : applyCaseOp
      (.insertParent db.nextCaseId (writeRecord (patchScalars data))) db with e | db1
  · rw [show runOpsConn (CaseOp.insertParent db.nextCaseId (writeRecord (patchScalars data))
        :: ((reconciledOfficerRows db.nextCaseId (patchScalars data)
              (some (asArray data.officers))).map CaseOp.insertOfficer
            ++ ((asArray data.persons).map (mkPersonRow db.nextCaseId)).map
                CaseOp.insertPerson)) db = (db, some e) from by simp [runOpsConn, happ]] at hrun
    simp at hrun
  · rw [show runOpsConn (CaseOp.insertParent db.nextCaseId (writeRecord (patchScalars data))
        :: ((reconciledOfficerRows db.nextCaseId (patchScalars data)
              (some (asArray data.officers))).map CaseOp.insertOfficer
            ++ ((asArray data.persons).map (mkPersonRow db.nextCaseId)).map
                CaseOp.insertPerson)) db
        = runOpsConn ((reconciledOfficerRows db.nextCaseId (patchScalars data)
              (some (asArray data.officers))).map CaseOp.insertOfficer
            ++ ((asArray data.persons).map (mkPersonRow db.nextCaseId)).map
                CaseOp.insertPerson) db1 from by simp [runOpsConn, happ]] at hrun
    rw [runOpsConn_append] at hrun
    rcases hOff : runOpsConn ((reconciledOfficerRows db.nextCaseId (patchScalars data)
        (some (asArray data.officers))).map CaseOp.insertOfficer) db1 with ⟨db2, eopt⟩
    rw [hOff] at hrun
    cases eopt
    · replace hrun : runOpsConn (((asArray data.persons).map
          (mkPersonRow db.nextCaseId)).map CaseOp.insertPerson) db2 = (db', none) := hrun
      rw [runOpsConn_insertPersons] at hrun
      cases hrun
      have hdb2 := runOpsConn_insertOfficers_ok _ _ _ hOff
      have hdb1 := applyCaseOp_insertParent_ok _ _ _ _ happ
      subst hdb2 hdb1
      exact ⟨hn, rfl, rfl⟩
    · rename_i e
      replace hrun : ((db2, some e) : CaseDB × Option MysqlErr) = (db', none) := hrun
      simp at hrun

theorem updateCase_validation_error (db : CaseDB) (id : Nat) (data : CasePatch)
    (u : CurrentUser) (sc : StoredCase) (e : AppErr)
    (hfind : findCase db id = some sc)
    (hauth : (sc.record.mainOfficerId == some u.id || hasPermission u "case:view_all") = true)
    (hpre : caseNoPreflightConflict db id data sc.record = false)
    (hval : validateCaseBusinessRules (mergeCase sc.record data) = some e) :
    updateCase db id data u = (db, .error (wrappedDbError e)) := by
  unfold updateCase
  rw [hfind]
  simp only [auth_pass_of_or _ _ hauth, hpre, hval, Bool.false_eq_true, if_false]

theorem officersOf_reconciled (db' db : CaseDB) (id : Nat) (merged : CaseRecord)
    (v : Option (List OfficerInput))
    (h : db'.caseOfficers = db.caseOfficers.filter (fun r => !(r.caseId == id))
        ++ reconciledOfficerRows id merged v) :
    officersOf db' id = reconciledOfficerRows id merged v := by
  unfold officersOf
  rw [h, List.filter_append, filter_not_then_self, filter_reconciledOfficerRows]
  simp

theorem mainOfficer_mem_reconciled (id : Nat) (merged : CaseRecord)
    (v : Option (List OfficerInput)) :
    ∃ r ∈ reconciledOfficerRows id merged v, r.officerId = merged.mainOfficerId := by
  unfold reconciledOfficerRows
  cases hm : (v.getD []).any (fun o => o.officerId == merged.mainOfficerId)
  · refine ⟨⟨id, merged.mainOfficerId, some "主办", none⟩, ?_, rfl⟩
    simp [hm]
  · obtain ⟨o, ho, heq⟩ := List.any_eq_true.mp hm
    refine ⟨mkOfficerRow id o, ?_, ?_⟩
    · simp only [hm, List.mem_append, List.mem_map]
      exact Or.inl ⟨o, ho, rfl⟩
    · simpa [mkOfficerRow] using heq

/-! ## Claim theorems -/

/-- Claim C10: login consults only the principal's `status` field, never the
`is_active` flag — for every stored officer found by badge number whose
status is not `'LOCKED'` and whose password matches, login succeeds and
issues a token (the officer's `isActive` and any non-LOCKED status value,
such as `'INACTIVE'`, are irrelevant); and a `'LOCKED'` status blocks the
login with `Unauthorized` before the password is even compared. -/
theorem login_consults_only_status :
    (∀ (officers : List OfficerAccount) (extra : Int → RolesPerms)
        (verify : String → String → Bool) (badgeNo : Option String) (password : String)
        (o : OfficerAccount),
      findOfficerByBadgeNo officers badgeNo = some o →
      o.status ≠ some "LOCKED" →
      verify password (o.passwordHash.getD "") = true →
      login officers extra verify badgeNo password =
        .ok ⟨⟨o.id, o.badgeNo, o.name, (extra o.id).roles, (extra o.id).permissions⟩,
             mapOfficerToUser o (extra o.id)⟩)
    ∧ (∀ (officers : List OfficerAccount) (extra : Int → RolesPerms)
        (verify : String → String → Bool) (badgeNo : Option String) (password : String)
        (o : OfficerAccount),
      findOfficerByBadgeNo officers badgeNo = some o →
      o.status = some "LOCKED" →
      login officers extra verify badgeNo password =
        .error (unauthorizedE "账号已锁定，请联系管理员")) := by
  constructor
  · intro officers extra verify badgeNo password o hfind hstatus hpw
    have h1 : (o.status == some "LOCKED") = false := by
      simp only [beq_eq_false_iff_ne, ne_eq]; exact hstatus
    unfold login
    rw [hfind]
    simp [h1, hpw, mapOfficerToUser]
  · intro officers extra verify badgeNo password o hfind hstatus
    unfold login
    rw [hfind]
    simp [hstatus]

/-- Witness for C10: an officer with `is_active = 0` and
`status = 'INACTIVE'` logs in successfully, and the same account with
`status = 'LOCKED'` is rejected. -/
theorem login_consults_only_status_witness :
    login [inactiveOfficer] (fun _ => ⟨[], [], []⟩) (fun p h => p == h) (some "B001") "pw" =
      .ok ⟨⟨7, some "B001", some "张三", [], []⟩,
           mapOfficerToUser inactiveOfficer ⟨[], [], []⟩⟩
    ∧ login [{ inactiveOfficer with status := some "LOCKED" }]
        (fun _ => ⟨[], [], []⟩) (fun p h => p == h) (some "B001") "pw" =
          .error (unauthorizedE "账号已锁定，请联系管理员") :=
  ⟨login_consults_only_status.1 [inactiveOfficer] (fun _ => ⟨[], [], []⟩)
      (fun p h => p == h) (some "B001") "pw" inactiveOfficer
      (by decide) (by decide) (by decide),
   login_consults_only_status.2 [{ inactiveOfficer with status := some "LOCKED" }]
      (fun _ => ⟨[], [], []⟩) (fun p h => p == h) (some "B001") "pw"
      { inactiveOfficer with status := some "LOCKED" } (by decide) (by decide)⟩

/-- Claim C9: an unclassified error (`err.name` neither JWT error name, not an
`AppError`, not a Joi error) reaching the boundary middleware produces a
500 response with error code `INTERNAL_ERROR`, the generic message
`服务器内部错误` and no details; the response is independent of the
underlying error's message and stack (so no raw internals leak, in any
mode), while the full error is logged server-side. -/
theorem unclassified_error_boundary_response
    (isProduction : Bool) (name message stack : String)
    (h1 : name ≠ "JsonWebTokenError") (h2 : name ≠ "TokenExpiredError") :
    ((errorHandler isProduction (.other name message stack)).1.status = 500
      ∧ (errorHandler isProduction (.other name message stack)).1.errorCode = "INTERNAL_ERROR"
      ∧ (errorHandler isProduction (.other name message stack)).1.message = "服务器内部错误"
      ∧ (errorHandler isProduction (.other name message stack)).1.details = none)
    ∧ (∀ message' stack',
        (errorHandler isProduction (.other name message' stack')).1
          = (errorHandler isProduction (.other name message stack)).1)
    ∧ (errorHandler isProduction (.other name message stack)).2
        = some ⟨"Unhandled error", message, stack⟩ := by
  have hn : (name == "JsonWebTokenError" || name == "TokenExpiredError") = false := by
    simp [h1, h2]
  refine ⟨⟨?_, ?_, ?_, ?_⟩, ?_, ?_⟩ <;>
    simp [errorHandler, hn, internalErrorE, appErrStack]

/-- Witness for C9: a driver failure (`name = 'Error'`, message and stack
full of internals) in non-production mode still yields the generic 500
response. -/
theorem unclassified_error_boundary_response_witness :
    ((errorHandler false (.other "Error" "ER_PARSE_ERROR near SELECT" "at db.js:42")).1.status = 500
      ∧ (errorHandler false (.other "Error" "ER_PARSE_ERROR near SELECT" "at db.js:42")).1.errorCode
          = "INTERNAL_ERROR"
      ∧ (errorHandler false (.other "Error" "ER_PARSE_ERROR near SELECT" "at db.js:42")).1.message
          = "服务器内部错误"
      ∧ (errorHandler false (.other "Error" "ER_PARSE_ERROR near SELECT" "at db.js:42")).1.details
          = none)
    ∧ (∀ message' stack',
        (errorHandler false (.other "Error" message' stack')).1
          = (errorHandler false (.other "Error" "ER_PARSE_ERROR near SELECT" "at db.js:42")).1)
    ∧ (errorHandler false (.other "Error" "ER_PARSE_ERROR near SELECT" "at db.js:42")).2
        = some ⟨"Unhandled error", "ER_PARSE_ERROR near SELECT", "at db.js:42"⟩ :=
  unclassified_error_boundary_response false "Error" "ER_PARSE_ERROR near SELECT"
    "at db.js:42" (by decide) (by decide)

/-- Counterexample for C2: updating `sampleCase` (whose collection holds
officer 5) with `officers: []` deletes the existing rows but then inserts
a synthesized `主办` row for main officer 7 — the resulting collection is
*not* exactly the supplied (empty) list. -/
theorem update_empty_officers_keeps_owner :
    emptyOfficersPatch.officers = some (some [])
    ∧ (updateCase sampleDB 1 emptyOfficersPatch user7).2 = .ok 1
    ∧ officersOf (updateCase sampleDB 1 emptyOfficersPatch user7).1 1
        = [⟨1, some 7, some "主办", none⟩]
    ∧ ¬(officersOf (updateCase sampleDB 1 emptyOfficersPatch user7).1 1 = []) := by
  decide

/-- Claim C2, amended: on a successful `updateCase`, a child-collection key absent
from the payload leaves that collection unchanged; a present key (even
`null` or `[]`) fully replaces it — `persons` becomes exactly the supplied
list, while `officers` becomes the supplied list *plus a synthesized
`主办` row for the merged main officer when they are absent from the
supplied list* (`reconciledOfficerRows`). -/
theorem update_children_reconciliation :
    ∀ (db : CaseDB) (id : Nat) (data : CasePatch) (u : CurrentUser) (sc : StoredCase)
      (db' : CaseDB) (n : Nat),
      findCase db id = some sc →
      updateCase db id data u = (db', .ok n) →
      (data.officers = none → officersOf db' id = officersOf db id)
      ∧ (data.persons = none → personsOf db' id = personsOf db id)
      ∧ (∀ v, data.officers = some v →
          officersOf db' id = reconciledOfficerRows id (mergeCase sc.record data) v)
      ∧ (∀ v, data.persons = some v →
          personsOf db' id = (v.getD []).map (mkPersonRow id)) := by
  intro db id data u sc db' n hfind hok
  obtain ⟨hOff, hPer⟩ := updateCase_ok_state db id data u sc db' n hfind hok
  refine ⟨?_, ?_, ?_, ?_⟩
  · intro hO
    rw [hO] at hOff
    replace hOff : db'.caseOfficers = db.caseOfficers := hOff
    unfold officersOf
    rw [hOff]
  · intro hP
    rw [hP] at hPer
    replace hPer : db'.casePersons = db.casePersons := hPer
    unfold personsOf
    rw [hPer]
  · intro v hO
    rw [hO] at hOff
    replace hOff : db'.caseOfficers
        = db.caseOfficers.filter (fun r => !(r.caseId == id))
            ++ reconciledOfficerRows id (mergeCase sc.record data) v := hOff
    exact officersOf_reconciled db' db id (mergeCase sc.record data) v hOff
  · intro v hP
    rw [hP] at hPer
    replace hPer : db'.casePersons
        = db.casePersons.filter (fun r => !(r.caseId == id))
            ++ (v.getD []).map (mkPersonRow id) := hPer
    unfold personsOf
    rw [hPer, List.filter_append, filter_not_then_self_persons, filter_mkPersonRows]
    simp

/-- Witness for C2 amended: the `officers: []` update on `sampleDB` yields
exactly the reconciled rows (here just the synthesized owner), and leaves
`persons` — whose key is absent — unchanged. -/
theorem update_children_reconciliation_witness :
    officersOf (updateCase sampleDB 1 emptyOfficersPatch user7).1 1
        = reconciledOfficerRows 1 (mergeCase sampleCase emptyOfficersPatch) (some [])
    ∧ personsOf (updateCase sampleDB 1 emptyOfficersPatch user7).1 1
        = personsOf sampleDB 1 :=
  ⟨(update_children_reconciliation sampleDB 1 emptyOfficersPatch user7 ⟨1, sampleCase⟩
      (updateCase sampleDB 1 emptyOfficersPatch user7).1 1 (by decide)
      (by decide)).2.2.1 (some []) rfl,
   (update_children_reconciliation sampleDB 1 emptyOfficersPatch user7 ⟨1, sampleCase⟩
      (updateCase sampleDB 1 emptyOfficersPatch user7).1 1 (by decide)
      (by decide)).2.1 rfl⟩

/-- Counterexample for C3: the spec's example is wrong on the code — creating
a case with main officer 7 and `officers: [{officerId: 7}]` (no role
marked) yields exactly one officer row for id 7, but its role is `NULL`,
not `'主办'`: the synthesis only fires when the main officer is *absent*
from the supplied list. -/
theorem create_unmarked_main_role_is_null :
    (createCase freshDB createMainUnmarked).2 = .ok 1
    ∧ officersOf (createCase freshDB createMainUnmarked).1 1
        = [⟨1, some 7, none, none⟩]
    ∧ ¬((⟨1, some 7, none, none⟩ : CaseOfficerRow).role = some "主办") := by
  decide

/-- Claim C3, amended: on every successful case create, the resulting officer
collection is the supplied list plus — only when the main officer is
absent from it — a synthesized row with role `'主办'`; in particular a row
for the main officer is always present (with role `NULL` when they were
supplied unmarked, `'主办'` only when synthesized).  On every successful
update that supplies the officers key, a row for the merged main officer
is likewise always present. -/
theorem owner_always_participant :
    (∀ (db : CaseDB) (data : CasePatch) (db' : CaseDB) (n : Nat),
      officersOf db db.nextCaseId = [] →
      createCase db data = (db', .ok n) →
      officersOf db' n = reconciledOfficerRows db.nextCaseId (patchScalars data)
          (some (asArray data.officers))
      ∧ ((asArray data.officers).any
            (fun o => o.officerId == (patchScalars data).mainOfficerId) = false →
          (⟨db.nextCaseId, (patchScalars data).mainOfficerId, some "主办", none⟩
            : CaseOfficerRow) ∈ officersOf db' n)
      ∧ ∃ r ∈ officersOf db' n, r.officerId = (patchScalars data).mainOfficerId)
    ∧ (∀ (db : CaseDB) (id : Nat) (data : CasePatch) (u : CurrentUser) (sc : StoredCase)
        (db' : CaseDB) (n : Nat) (v : Option (List OfficerInput)),
        findCase db id = some sc →
        updateCase db id data u = (db', .ok n) →
        data.officers = some v →
        ∃ r ∈ officersOf db' id, r.officerId = (mergeCase sc.record data).mainOfficerId) := by
  constructor
  · intro db data db' n hfresh hok
    obtain ⟨hn, hOff, -⟩ := createCase_ok_state db data db' n hok
    subst hn
    have hres : officersOf db' db.nextCaseId
        = reconciledOfficerRows db.nextCaseId (patchScalars data)
            (some (asArray data.officers)) := by
      unfold officersOf at hfresh ⊢
      rw [hOff, List.filter_append, hfresh, filter_reconciledOfficerRows]
      simp
    refine ⟨hres, ?_, ?_⟩
    · intro hm
      rw [hres]
      unfold reconciledOfficerRows
      simp only [Option.getD_some, hm]
      simp
    · rw [hres]
      exact mainOfficer_mem_reconciled _ _ _
  · intro db id data u sc db' n v hfind hok hO
    obtain ⟨hOff, -⟩ := updateCase_ok_state db id data u sc db' n hfind hok
    rw [hO] at hOff
    replace hOff : db'.caseOfficers
        = db.caseOfficers.filter (fun r => !(r.caseId == id))
            ++ reconciledOfficerRows id (mergeCase sc.record data) v := hOff
    rw [officersOf_reconciled db' db id (mergeCase sc.record data) v hOff]
    exact mainOfficer_mem_reconciled _ _ _

/-- Witness for C3 amended: creating a case in `freshDB` with an empty
officers list synthesizes the owner row with role `'主办'`, which is
present in the result. -/
theorem owner_always_participant_witness :
    officersOf (createCase freshDB createNoOfficers).1 freshDB.nextCaseId
      = reconciledOfficerRows freshDB.nextCaseId (patchScalars createNoOfficers) (some [])
    ∧ ∃ r ∈ officersOf (createCase freshDB createNoOfficers).1 freshDB.nextCaseId,
        r.officerId = some 7 :=
  ⟨(owner_always_participant.1 freshDB createNoOfficers _ 1 (by decide) (by decide)).1,
   (owner_always_participant.1 freshDB createNoOfficers _ 1 (by decide) (by decide)).2.2⟩

/-- Counterexample for C8: for the *detail read*, a caller who is not the
case's owner (main officer) but appears in `case_officers` does not fail
`Forbidden` — officer 5 lacks `case:view_all`, does not own case 1, and
still reads it. -/
theorem participant_detail_read_not_forbidden :
    hasPermission user5 "case:view_all" = false
    ∧ ¬(sampleCase.mainOfficerId = some user5.id)
    ∧ getCaseDetail sampleDB 1 user5
        = .ok ⟨sampleCase, [⟨1, some 5, none, none⟩], []⟩ := by
  decide

/-- Claim C8, amended: for a caller without `case:view_all`, `updateCase` and
`deleteCase` require being the main officer — a non-owner is refused (the
service raises `Forbidden`, which the broken `err.isAppError` guard then
re-wraps into a `DB_ERROR` 500 before the caller sees it), and an owner
never sees a `FORBIDDEN` error; the *detail read* (no `try` around it) is
wider: it admits the main officer *or any participant* in
`case_officers`, and fails a plain `Forbidden` only for callers who are
neither. -/
theorem case_ownership_scoping :
    (∀ (db : CaseDB) (id : Nat) (data : CasePatch) (u : CurrentUser) (sc : StoredCase),
      findCase db id = some sc →
      hasPermission u "case:view_all" = false →
      (sc.record.mainOfficerId == some u.id) = false →
      updateCase db id data u
        = (db, .error (wrappedDbError (forbiddenE "无权修改该案件"))))
    ∧ (∀ (db : CaseDB) (id : Nat) (data : CasePatch) (u : CurrentUser) (sc : StoredCase)
        (e : AppErr),
        findCase db id = some sc →
        (sc.record.mainOfficerId == some u.id) = true →
        (updateCase db id data u).2 = .error e → ¬(e.errorCode = "FORBIDDEN"))
    ∧ (∀ (db : CaseDB) (id : Nat) (u : CurrentUser) (sc : StoredCase),
        findCase db id = some sc →
        hasPermission u "case:view_all" = false →
        (sc.record.mainOfficerId == some u.id) = false →
        deleteCase db id u
          = (db, .error (wrappedDbError (forbiddenE "无权删除该案件"))))
    ∧ (∀ (db : CaseDB) (id : Nat) (u : CurrentUser) (sc : StoredCase) (e : AppErr),
        findCase db id = some sc →
        (sc.record.mainOfficerId == some u.id) = true →
        (deleteCase db id u).2 = .error e → ¬(e.errorCode = "FORBIDDEN"))
    ∧ (∀ (db : CaseDB) (id : Nat) (u : CurrentUser) (sc : StoredCase),
        findCase db id = some sc →
        hasPermission u "case:view_all" = false →
        (sc.record.mainOfficerId == some u.id) = false →
        db.caseOfficers.any (fun co => co.caseId == id && co.officerId == some u.id) = false →
        getCaseDetail db id u = .error (forbiddenE "无权查看该案件"))
    ∧ (∀ (db : CaseDB) (id : Nat) (u : CurrentUser) (sc : StoredCase),
        findCase db id = some sc →
        ((sc.record.mainOfficerId == some u.id)
          || db.caseOfficers.any (fun co => co.caseId == id && co.officerId == some u.id))
          = true →
        getCaseDetail db id u = .ok ⟨sc.record, officersOf db id, personsOf db id⟩) := by
  refine ⟨?_, ?_, ?_, ?_, ?_, ?_⟩
  · intro db id data u sc hfind hperm hmain
    unfold updateCase
    rw [hfind]
    simp [hmain, hperm]
  · intro db id data u sc e hfind hmain h
    unfold updateCase at h
    split at h
    · rename_i heq
      rw [hfind] at heq
      cases heq
    · rename_i sc2 heq
      rw [hfind] at heq
      cases heq
      simp only [hmain, Bool.not_true, Bool.false_and, Bool.false_eq_true, if_false] at h
      split at h
      · replace h : Except.error (wrappedDbError caseNoConflictMsg) = Except.error e := h
        cases h
        decide
      · split at h
        · rename_i e1 hval
          replace h : Except.error (wrappedDbError e1) = Except.error e := h
          cases h
          rw [show (wrappedDbError e1).errorCode = "DB_ERROR" from rfl]
          decide
        · split at h
          · replace h : Except.ok id = Except.error e := h
            cases h
          · rename_i dbR e2 htx
            replace h : Except.error (handleCaseDbError e2) = Except.error e := h
            cases h
            rcases handleCaseDbError_code e2 with hc | hc | hc <;> rw [hc] <;> decide
  · intro db id u sc hfind hperm hmain
    unfold deleteCase
    rw [hfind]
    simp [hmain, hperm]
  · intro db id u sc e hfind hmain h
    unfold deleteCase at h
    split at h
    · rename_i heq
      rw [hfind] at heq
      cases heq
    · rename_i sc2 heq
      rw [hfind] at heq
      cases heq
      simp only [hmain, Bool.not_true, Bool.false_and, Bool.false_eq_true, if_false] at h
      split at h
      · rename_i e1
        replace h : Except.error (wrappedDbError (validationErrorE "仅允许删除状态为“在办”的案件"
            (some (.fieldErrors [("status", "仅允许删除状态为“在办”的案件")]))))
            = Except.error e := h
        cases h
        decide
      · split at h
        · replace h : Except.ok id = Except.error e := h
          cases h
        · rename_i dbR e2 htx
          replace h : Except.error (handleCaseDbError e2) = Except.error e := h
          cases h
          rcases handleCaseDbError_code e2 with hc | hc | hc <;> rw [hc] <;> decide
  · intro db id u sc hfind hperm hmain hpart
    unfold getCaseDetail
    rw [hfind]
    simp [hmain, hperm, hpart]
  · intro db id u sc hfind hany
    unfold getCaseDetail
    rw [hfind]
    rcases Bool.or_eq_true_iff.mp hany with hm | hp
    · simp [hm]
    · simp [hp]

/-- Witness for C8 amended: user 5 (participant, not owner, no
`case:view_all`) is refused an update of case 1 with `Forbidden`; owner 7
updating it gets no `FORBIDDEN` even when the update fails validation;
user 5 still reads the detail. -/
theorem case_ownership_scoping_witness :
    updateCase sampleDB 1 { status := some (some "已结") } user5
        = (sampleDB, .error (wrappedDbError (forbiddenE "无权修改该案件")))
    ∧ ¬((wrappedDbError (validationErrorE "已结案件必须填写结案日期和结案结果"
          (some (.fieldErrors
            [("closedDate", "结案日期必填"), ("resultItemId", "处理结果必填")])))).errorCode
        = "FORBIDDEN")
    ∧ getCaseDetail sampleDB 1 user5
        = .ok ⟨sampleCase, officersOf sampleDB 1, personsOf sampleDB 1⟩ :=
  ⟨case_ownership_scoping.1 sampleDB 1 { status := some (some "已结") } user5
      ⟨1, sampleCase⟩ (by decide) (by decide) (by decide),
   case_ownership_scoping.2.1 sampleDB 1 { status := some (some "已结") } user7
      ⟨1, sampleCase⟩ _ (by decide) (by decide) (by decide),
   case_ownership_scoping.2.2.2.2.2 sampleDB 1 user5 ⟨1, sampleCase⟩
      (by decide) (by decide)⟩

/-- Counterexample for C5: a merged record with `status = '已结'` and both
closure fields missing, but whose deadline also precedes the received
date, fails on the *date* rule — the detail map carries only
`deadlineDate`, not the `closedDate`/`resultItemId` keys the claim
requires. -/
theorem closed_fields_masked_by_deadline_rule :
    closedMaskedCase.status = some "已结"
    ∧ truthyS closedMaskedCase.closedDate = false
    ∧ isNil closedMaskedCase.resultItemId = true
    ∧ fieldKeys (validateCaseBusinessRules closedMaskedCase) = ["deadlineDate"]
    ∧ ¬("closedDate" ∈ fieldKeys (validateCaseBusinessRules closedMaskedCase)) := by
  decide

/-- Claim C5, amended: a merged record with `status = '已结'` and closure date or
result code missing always fails with a `ValidationError`; *provided the
date-ordering rule is not also violated* (that rule runs first and its
error replaces the closed-status one), the detail map carries both the
`closedDate` and `resultItemId` keys when both are missing.  `updateCase`
evaluates the rules against the merged (existing + patch) record — but its
broken `err.isAppError` rethrow guard re-wraps the `ValidationError` as a
`DB_ERROR` (500, field map lost) before it reaches the caller; only
`createCase`, which validates before its `try`, surfaces the
`ValidationError` itself. -/
theorem closed_status_validation :
    (∀ c : CaseRecord, c.status = some "已结" →
      (truthyS c.closedDate = false ∨ isNil c.resultItemId = true) →
      ∃ e, validateCaseBusinessRules c = some e
        ∧ e.errorCode = "VALIDATION_ERROR" ∧ e.status = 400)
    ∧ (∀ c : CaseRecord, c.status = some "已结" → deadlineViolated c = false →
        truthyS c.closedDate = false → isNil c.resultItemId = true →
        fieldKeys (validateCaseBusinessRules c) = ["closedDate", "resultItemId"])
    ∧ (∀ (db : CaseDB) (id : Nat) (data : CasePatch) (u : CurrentUser)
        (sc : StoredCase) (e : AppErr),
        findCase db id = some sc →
        (sc.record.mainOfficerId == some u.id || hasPermission u "case:view_all") = true →
        caseNoPreflightConflict db id data sc.record = false →
        validateCaseBusinessRules (mergeCase sc.record data) = some e →
        updateCase db id data u = (db, .error (wrappedDbError e)))
    ∧ (∀ (db : CaseDB) (data : CasePatch) (e : AppErr),
        validateCaseBusinessRules (createCheckRecord data) = some e →
        createCase db data = (db, .error e)) := by
  refine ⟨?_, ?_, ?_, ?_⟩
  · intro c hstatus hmiss
    unfold validateCaseBusinessRules
    split
    · exact ⟨_, rfl, rfl, rfl⟩
    · have hs : (c.status == some "已结") = true := by simp [hstatus]
      have hcond : (!truthyS c.closedDate || isNil c.resultItemId) = true := by
        rcases hmiss with h | h <;> simp [h]
      rw [if_pos (by rw [hs, hcond]; rfl)]
      exact ⟨_, rfl, rfl, rfl⟩
  · intro c hstatus hdl hclosed hnil
    unfold validateCaseBusinessRules
    rw [if_neg (by rw [hdl]; exact Bool.false_ne_true)]
    have hs : (c.status == some "已结") = true := by simp [hstatus]
    rw [if_pos (by rw [hs, hclosed, hnil]; rfl)]
    simp [fieldKeys, validationErrorE, hclosed, hnil]
  · exact fun db id data u sc e => updateCase_validation_error db id data u sc e
  · intro db data e hval
    unfold createCase
    rw [hval]

/-- Witness for C5 amended: updating `sampleCase` (owned by user 7) with
just `status: '已结'` fails with the ValidationError listing both missing
closure fields, evaluated against the merged record (the patch alone
carries neither date nor result). -/
theorem closed_status_validation_witness :
    (∃ e, validateCaseBusinessRules { emptyCase with status := some "已结" } = some e
      ∧ e.errorCode = "VALIDATION_ERROR" ∧ e.status = 400)
    ∧ fieldKeys (validateCaseBusinessRules { emptyCase with status := some "已结" })
        = ["closedDate", "resultItemId"]
    ∧ updateCase sampleDB 1 { status := some (some "已结") } user7 =
        (sampleDB, .error (wrappedDbError (validationErrorE "已结案件必须填写结案日期和结案结果"
          (some (.fieldErrors
            [("closedDate", "结案日期必填"), ("resultItemId", "处理结果必填")]))))) :=
  ⟨closed_status_validation.1 { emptyCase with status := some "已结" } rfl (Or.inl rfl),
   closed_status_validation.2.1 { emptyCase with status := some "已结" } rfl rfl rfl rfl,
   closed_status_validation.2.2.1 sampleDB 1 { status := some (some "已结") } user7
     ⟨1, sampleCase⟩ _ (by decide) (by decide) (by decide) (by decide)⟩

/-- Counterexample for C6: a merged record violating the date-ordering rule
*and* the transferred-status rule at once reports only the first rule's
field (`deadlineDate`); the transfer-field keys are absent even though
those requirements are also violated. -/
theorem validation_reports_first_rule_only :
    transferMaskedCase.status = some "移交"
    ∧ truthyS transferMaskedCase.transferTarget = false
    ∧ truthyS transferMaskedCase.transferDate = false
    ∧ deadlineViolated transferMaskedCase = true
    ∧ fieldKeys (validateCaseBusinessRules transferMaskedCase) = ["deadlineDate"]
    ∧ ¬("transferTarget" ∈ fieldKeys (validateCaseBusinessRules transferMaskedCase)) := by
  decide

/-- Claim C6, amended: `validateCaseBusinessRules` throws at the first violated
*rule* — a date-ordering violation always yields the `deadlineDate`-only
error, whatever other rules the record also violates; aggregation happens
only *within* a single rule, where both members of a status-gated pair are
collected into one field map when both are missing. -/
theorem first_violated_rule_reported :
    (∀ c : CaseRecord, deadlineViolated c = true →
      validateCaseBusinessRules c = some (validationErrorE "办理截止日期不能早于受案日期"
        (some (.fieldErrors [("deadlineDate", "截止日期不能早于受案日期")]))))
    ∧ (∀ c : CaseRecord, deadlineViolated c = false → c.status = some "移交" →
        truthyS c.transferTarget = false → truthyS c.transferDate = false →
        fieldKeys (validateCaseBusinessRules c) = ["transferTarget", "transferDate"])
    ∧ (∀ c : CaseRecord, deadlineViolated c = false → c.status = some "存档" →
        truthyS c.archiveLocation = false → truthyS c.archiveDate = false →
        fieldKeys (validateCaseBusinessRules c) = ["archiveLocation", "archiveDate"]) := by
  refine ⟨?_, ?_, ?_⟩
  · intro c h
    unfold validateCaseBusinessRules
    rw [if_pos h]
  · intro c hdl hstatus ht1 ht2
    unfold validateCaseBusinessRules
    rw [if_neg (by rw [hdl]; exact Bool.false_ne_true)]
    have hs1 : (c.status == some "已结") = false := by simp [hstatus]
    rw [if_neg (by rw [hs1]; simp)]
    have hs2 : (c.status == some "移交") = true := by simp [hstatus]
    rw [if_pos (by rw [hs2, ht1]; rfl)]
    simp [fieldKeys, validationErrorE, ht1, ht2]
  · intro c hdl hstatus ht1 ht2
    unfold validateCaseBusinessRules
    rw [if_neg (by rw [hdl]; exact Bool.false_ne_true)]
    have hs1 : (c.status == some "已结") = false := by simp [hstatus]
    rw [if_neg (by rw [hs1]; simp)]
    have hs2 : (c.status == some "移交") = false := by simp [hstatus]
    rw [if_neg (by rw [hs2]; simp)]
    have hs3 : (c.status == some "存档") = true := by simp [hstatus]
    rw [if_pos (by rw [hs3, ht1]; rfl)]
    simp [fieldKeys, validationErrorE, ht1, ht2]

/-- Witness for C6 amended: a record violating only the transfer rule
(with both fields missing) collects both keys in one map, while a record
violating the date rule reports it alone. -/
theorem first_violated_rule_reported_witness :
    fieldKeys (validateCaseBusinessRules { emptyCase with status := some "移交" })
        = ["transferTarget", "transferDate"]
    ∧ validateCaseBusinessRules dateOrderViolCase
      = some (validationErrorE "办理截止日期不能早于受案日期"
          (some (.fieldErrors [("deadlineDate", "截止日期不能早于受案日期")]))) :=
  ⟨first_violated_rule_reported.2.1 { emptyCase with status := some "移交" }
      rfl rfl rfl rfl,
   first_violated_rule_reported.1 dateOrderViolCase (by decide)⟩

/-- Counterexample for C4: `updatePlace` merges `gridName` with `??`, so a
patch that explicitly sets `gridName: null` does **not** replace the
existing value with `null` — the merged record keeps `"G1"`. -/
theorem place_explicit_null_not_honored :
    (mergePlace samplePlace nullGridPatch).gridName = some "G1"
    ∧ nullGridPatch.gridName = some none
    ∧ ¬((mergePlace samplePlace nullGridPatch).gridName = none) := by decide

/-- Claim C4, amended: partial-update merges keep existing values for absent
fields and take incoming values for present fields, with explicit `null`
honored (replacing the value with `null`) for *all* case fields (object
spread) and for the `!== undefined`-tested place fields (`communityId`,
`typeItemId`) and inspection fields; but the nullish-coalesced (`??`)
place fields (`name`, `address`, `type`, `gridName`, `principalName`,
`contactPhone`, `remark`) and the boolean-tested inspection field
`hasHiddenDanger` treat an explicit `null` like an absent key and keep
the existing value. -/
theorem partial_update_merge_semantics :
    (∀ (e : CaseRecord) (p : CasePatch) (v : Option String),
      p.closedDate = some v → (mergeCase e p).closedDate = v)
    ∧ (∀ (e : CaseRecord) (p : CasePatch),
      p.closedDate = none → (mergeCase e p).closedDate = e.closedDate)
    ∧ (∀ (e : CaseRecord) (p : CasePatch) (v : Option String),
      p.status = some v → (mergeCase e p).status = v)
    ∧ (∀ (e : PlaceRecord) (p : PlacePatch) (v : Option Int),
      p.communityId = some v → (mergePlace e p).communityId = v)
    ∧ (∀ (e : PlaceRecord) (p : PlacePatch),
      p.communityId = none → (mergePlace e p).communityId = e.communityId)
    ∧ (∀ (e : InspectionRecord) (p : InspectionPatch) (v : Option String),
      p.inspectorName = some v → (mergeInspection e p).inspectorName = v)
    ∧ (∀ (e : InspectionRecord) (p : InspectionPatch),
      p.inspectorName = none → (mergeInspection e p).inspectorName = e.inspectorName)
    ∧ (∀ (e : PlaceRecord) (p : PlacePatch) (v : String),
      p.gridName = some (some v) → (mergePlace e p).gridName = some v)
    ∧ (∀ (e : PlaceRecord) (p : PlacePatch),
      p.gridName = some none → (mergePlace e p).gridName = e.gridName)
    ∧ (∀ (e : InspectionRecord) (p : InspectionPatch),
      p.hasHiddenDanger = some none →
        (mergeInspection e p).hasHiddenDanger = (e.hasHiddenDanger == some 1)) := by
  refine ⟨?_, ?_, ?_, ?_, ?_, ?_, ?_, ?_, ?_, ?_⟩ <;>
    first
      | (intro e p v h; simp [mergeCase, mergePlace, mergeInspection, presentJS, coalesceJS, h])
      | (intro e p h; simp [mergeCase, mergePlace, mergeInspection, presentJS, coalesceJS, h])

/-- Witness for C4 amended: a case patch with explicit `closedDate: null`
nulls the merged field, and a place patch with explicit `typeItemId`
present replaces it. -/
theorem partial_update_merge_semantics_witness :
    (mergeCase sampleCase { closedDate := some none }).closedDate = none
    ∧ (mergePlace samplePlace { communityId := some none }).communityId = none :=
  ⟨partial_update_merge_semantics.1 sampleCase { closedDate := some none } none rfl,
   (partial_update_merge_semantics.2.2.2.1 samplePlace { communityId := some none } none rfl)⟩

/-- Counterexample for C7: in officer registration, a duplicate-key error
raised by the storage engine *after* the badge-number pre-flight passed
(the race: the pre-flight sees no row, then the INSERT hits the unique
constraint) is caught and rethrown as a generic `DB_ERROR` (500), not
translated to `Conflict`. -/
theorem register_race_dup_surfaces_db_error :
    register [] (.error dupEntryErr) (some "B001") (some "张三") (some "pw") none
      = .error (dbErrorE "注册失败，请稍后重试" none)
    ∧ dupEntryErr.code = some "ER_DUP_ENTRY"
    ∧ (dbErrorE "注册失败，请稍后重试" none).errorCode = "DB_ERROR"
    ∧ ¬((dbErrorE "注册失败，请稍后重试" none).errorCode = "CONFLICT") := by
  decide

/-- Claim C7, amended: neither entity gets `Conflict` on both paths.  For
*case* writes, `handleCaseDbError` translates every storage
`ER_DUP_ENTRY` (the post-pre-flight race) into a `Conflict` (409), but the
pre-flight `Conflict` itself is raised inside the `try` whose broken
`err.isAppError` guard re-wraps it as `DB_ERROR`.  For *officer
registration* it is the other way round: the pre-flight collision yields
`Conflict` (raised before the `try`), while a storage duplicate-key error
after the pre-flight passed is wrapped as the generic `DB_ERROR` (500),
never `Conflict`. -/
theorem unique_collision_conflict_translation :
    (∀ e : MysqlErr, e.code = some "ER_DUP_ENTRY" →
      (handleCaseDbError e).errorCode = "CONFLICT" ∧ (handleCaseDbError e).status = 409)
    ∧ (∀ (db : CaseDB) (data : CasePatch),
        validateCaseBusinessRules (createCheckRecord data) = none →
        createPreflightDup db data = true →
        createCase db data = (db, .error (wrappedDbError caseNoConflictMsg))
          ∧ (wrappedDbError caseNoConflictMsg).errorCode = "DB_ERROR")
    ∧ (∀ (officers : List OfficerAccount) (insertOutcome : Except MysqlErr Int)
        (badgeNo name password phone : Option String) (o : OfficerAccount),
        truthyS badgeNo = true → truthyS name = true → truthyS password = true →
        findOfficerByBadgeNo officers badgeNo = some o →
        register officers insertOutcome badgeNo name password phone
          = .error (conflictE "警号已存在，请联系管理员或直接登录" none))
    ∧ (∀ (officers : List OfficerAccount) (e : MysqlErr)
        (badgeNo name password phone : Option String),
        truthyS badgeNo = true → truthyS name = true → truthyS password = true →
        findOfficerByBadgeNo officers badgeNo = none →
        register officers (.error e) badgeNo name password phone
          = .error (dbErrorE "注册失败，请稍后重试" none)) := by
  refine ⟨?_, ?_, ?_, ?_⟩
  · intro e h
    unfold handleCaseDbError
    rw [if_pos (by simp [h])]
    split <;> exact ⟨rfl, rfl⟩
  · intro db data hval hdup
    refine ⟨?_, rfl⟩
    unfold createCase
    rw [hval, hdup]
    rfl
  · intro officers insertOutcome badgeNo name password phone o h1 h2 h3 hfind
    unfold register
    rw [if_neg (by rw [h1, h2, h3]; simp), hfind]
  · intro officers e badgeNo name password phone h1 h2 h3 hfind
    unfold register
    rw [if_neg (by rw [h1, h2, h3]; simp), hfind]

/-- Witness for C7 amended: a concrete `ER_DUP_ENTRY` on `uk_case_no` is
translated to `Conflict`; creating a second case with `sampleCase`'s
number conflicts in pre-flight; registering a badge number that already
exists conflicts in pre-flight; the post-pre-flight duplicate during
registration is wrapped as `DB_ERROR`. -/
theorem unique_collision_conflict_translation_witness :
    ((handleCaseDbError dupEntryErr).errorCode = "CONFLICT"
      ∧ (handleCaseDbError dupEntryErr).status = 409)
    ∧ (createCase sampleDB dupCaseNoPatch
          = (sampleDB, .error (wrappedDbError caseNoConflictMsg))
       ∧ (wrappedDbError caseNoConflictMsg).errorCode = "DB_ERROR")
    ∧ register [inactiveOfficer] (.ok 8) (some "B001") (some "李四") (some "pw2") none
        = .error (conflictE "警号已存在，请联系管理员或直接登录" none)
    ∧ register [] (.error dupEntryErr) (some "B002") (some "李四") (some "pw2") none
        = .error (dbErrorE "注册失败，请稍后重试" none) :=
  ⟨unique_collision_conflict_translation.1 dupEntryErr rfl,
   unique_collision_conflict_translation.2.1 sampleDB dupCaseNoPatch
     (by decide) (by decide),
   unique_collision_conflict_translation.2.2.1 [inactiveOfficer] (.ok 8)
     (some "B001") (some "李四") (some "pw2") none inactiveOfficer
     (by decide) (by decide) (by decide) (by decide),
   unique_collision_conflict_translation.2.2.2 [] dupEntryErr
     (some "B002") (some "李四") (some "pw2") none
     (by decide) (by decide) (by decide) (by decide)⟩

/-- Claim C1: every case aggregate write (`createCase`, `updateCase`,
`deleteCase`) is atomic — whenever the operation reports an error, the
database is exactly the caller's original state: neither the parent
insert/update nor any child delete/insert is visible (`withTransaction`
rolls the whole unit back); on success the transaction committed all of
them together (the success pair is the fully-applied run). -/
theorem aggregate_write_rollback :
    (∀ (db : CaseDB) (data : CasePatch) (e : AppErr),
      (createCase db data).2 = .error e → (createCase db data).1 = db)
    ∧ (∀ (db : CaseDB) (id : Nat) (data : CasePatch) (u : CurrentUser) (e : AppErr),
      (updateCase db id data u).2 = .error e → (updateCase db id data u).1 = db)
    ∧ (∀ (db : CaseDB) (id : Nat) (u : CurrentUser) (e : AppErr),
      (deleteCase db id u).2 = .error e → (deleteCase db id u).1 = db) := by
  refine ⟨?_, ?_, ?_⟩
  · intro db data e h
    rcases hres : createCase db data with ⟨db1, r⟩
    rw [hres] at h
    replace h : r = Except.error e := h
    show db1 = db
    unfold createCase at hres
    split at hres
    · cases hres; rfl
    · split at hres
      · cases hres; rfl
      · split at hres
        · cases hres; cases h
        · rename_i htx
          cases hres
          exact withTransactionOps_rollback _ _ _ _ htx
  · intro db id data u e h
    rcases hres : updateCase db id data u with ⟨db1, r⟩
    rw [hres] at h
    replace h : r = Except.error e := h
    show db1 = db
    unfold updateCase at hres
    split at hres
    · cases hres; rfl
    · split at hres
      · cases hres; rfl
      · split at hres
        · cases hres; rfl
        · split at hres
          · cases hres; rfl
          · split at hres
            · cases hres; cases h
            · rename_i htx
              cases hres
              exact withTransactionOps_rollback _ _ _ _ htx
  · intro db id u e h
    rcases hres : deleteCase db id u with ⟨db1, r⟩
    rw [hres] at h
    replace h : r = Except.error e := h
    show db1 = db
    unfold deleteCase at hres
    split at hres
    · cases hres; rfl
    · split at hres
      · cases hres; rfl
      · split at hres
        · cases hres; rfl
        · split at hres
          · cases hres; cases h
          · rename_i htx
            cases hres
            exact withTransactionOps_rollback _ _ _ _ htx

/-- Witness for C1: on `narrowDB` (officer 5 does not exist), updating
case 1's officers list to `[{officerId: 5}]` succeeds in its parent UPDATE
and child DELETE, then fails on the officer INSERT's foreign key — the
reported error is the translated ValidationError and the database is
returned unchanged, with no partial write visible. -/
theorem aggregate_write_rollback_witness :
    (updateCase narrowDB 1 fkFailPatch user7).2
        = .error (validationErrorE "关联数据不存在或仍被引用，操作失败" none)
    ∧ (updateCase narrowDB 1 fkFailPatch user7).1 = narrowDB :=
  ⟨by decide,
   aggregate_write_rollback.2.1 narrowDB 1 fkFailPatch user7
     (validationErrorE "关联数据不存在或仍被引用，操作失败" none) (by decide)⟩

end Server
